import Mathlib

/-!
# HealthMosaic: the health-score formulas

A shallow embedding of the scoring code of the portal:

* `calculateHealthScoreAlgorithm` (`app/actions/patient.js`), the server score;
* `calculateOptimisticScore` (`app/(patient)/patient-dashboard/page.js`), the client preview;
* `calculateHealthMetrics` (`app/patient/patient-dashboard/page.js`), the four breakdown metrics;
* the server actions `getPatient`, `calculateHealthScore`, `getHealthHistory` and
  `updatePatientProfile` (`app/actions/patient.js`), as functions of the database state;
* the questionnaire and the submission of the dashboard
  (`app/(patient)/patient-dashboard/page.js`), and the status texts of the two dashboards;
* the step handlers of the multi-step assessment (`app/health-assessment/page.js`).

JavaScript numbers are modelled by `JSNum`: an exact rational, the two infinities, or NaN.
Rounding error, overflow and the sign of zero of IEEE-754 doubles are not modelled; the
special values that a division by zero produces are. In particular the BMI is the exact
quotient `weight / (height/100)²`: for a weight or height that is not an integer the double
computed by the source can differ from it in the last bit and fall on the other side of a
bracket edge (weight 43.52, height 160: exact BMI 17, double 16.999999999999996), so the
lemmas that tie the score to the bracket of the exact BMI (`server_eq_spec`,
`preview_eq_spec`) describe the idealised arithmetic only. The results drawn from them either
do not depend on which bracket the BMI takes or are stated where the BMI is far from every
edge. A field that is absent from a record
reads as `undefined`, which behaves as NaN in every arithmetic operation, comparison and
truthiness test this code performs, so an absent field is `JSNum.nan`.
-/

namespace HealthMosaic

/-- A JavaScript number: a finite value (exact rational), `Infinity`, `-Infinity` or `NaN`. -/
inductive JSNum where
  | fin (q : ℚ)
  | posInf
  | negInf
  | nan
  deriving DecidableEq

namespace JSNum

/-- Unary minus. -/
def neg : JSNum → JSNum
  | fin a => fin (-a)
  | posInf => negInf
  | negInf => posInf
  | nan => nan

/-- The `+` operator on numbers. -/
def add : JSNum → JSNum → JSNum
  | fin a, fin b => fin (a + b)
  | nan, _ => nan
  | _, nan => nan
  | posInf, negInf => nan
  | negInf, posInf => nan
  | posInf, _ => posInf
  | _, posInf => posInf
  | negInf, _ => negInf
  | _, negInf => negInf

/-- The `-` operator on numbers. -/
def sub (a b : JSNum) : JSNum := add a (neg b)

/-- An infinity of the given sign (`true` is positive). -/
def infOf (positive : Bool) : JSNum := if positive then posInf else negInf

/-- The `*` operator on numbers. -/
def mul : JSNum → JSNum → JSNum
  | fin a, fin b => fin (a * b)
  | nan, _ => nan
  | _, nan => nan
  | posInf, fin b => if b = 0 then nan else infOf (decide (0 < b))
  | negInf, fin b => if b = 0 then nan else infOf (decide (b < 0))
  | fin a, posInf => if a = 0 then nan else infOf (decide (0 < a))
  | fin a, negInf => if a = 0 then nan else infOf (decide (a < 0))
  | posInf, posInf => posInf
  | negInf, negInf => posInf
  | posInf, negInf => negInf
  | negInf, posInf => negInf

/-- The `/` operator on numbers: a non-zero value over zero is an infinity, zero over zero
is NaN. -/
def div : JSNum → JSNum → JSNum
  | fin a, fin b =>
      if b = 0 then (if a = 0 then nan else infOf (decide (0 < a))) else fin (a / b)
  | nan, _ => nan
  | _, nan => nan
  | fin _, posInf => fin 0
  | fin _, negInf => fin 0
  | posInf, fin b => infOf (decide (0 ≤ b))
  | negInf, fin b => infOf (decide (b < 0))
  | posInf, posInf => nan
  | posInf, negInf => nan
  | negInf, posInf => nan
  | negInf, negInf => nan

/-- The `<=` operator: false as soon as an operand is NaN. -/
def le : JSNum → JSNum → Bool
  | fin a, fin b => decide (a ≤ b)
  | nan, _ => false
  | _, nan => false
  | negInf, _ => true
  | _, posInf => true
  | posInf, _ => false
  | _, negInf => false

/-- The `<` operator: false as soon as an operand is NaN. -/
def lt : JSNum → JSNum → Bool
  | fin a, fin b => decide (a < b)
  | nan, _ => false
  | _, nan => false
  | posInf, _ => false
  | _, negInf => false
  | negInf, _ => true
  | _, posInf => true

/-- The `>=` operator. -/
def ge (a b : JSNum) : Bool := le b a

/-- The `>` operator. -/
def gt (a b : JSNum) : Bool := lt b a

/-- Truthiness of a number in a condition: `0` and `NaN` are falsy. -/
def truthy : JSNum → Bool
  | fin a => decide (a ≠ 0)
  | posInf => true
  | negInf => true
  | nan => false

/-- The `||` operator on numbers: the left operand when truthy, else the right one. -/
def orElse (a b : JSNum) : JSNum := if truthy a then a else b

/-- `Math.min` of two numbers. -/
def min (a b : JSNum) : JSNum :=
  match a, b with
  | nan, _ => nan
  | _, nan => nan
  | a, b => if le a b then a else b

/-- `Math.max` of two numbers. -/
def max (a b : JSNum) : JSNum :=
  match a, b with
  | nan, _ => nan
  | _, nan => nan
  | a, b => if le a b then b else a

/-- `Math.floor`. -/
def floor : JSNum → JSNum
  | fin a => fin (⌊a⌋ : ℤ)
  | x => x

/-- `Math.round`: the nearest integer, halves rounded up. -/
def round : JSNum → JSNum
  | fin a => fin (⌊a + 1 / 2⌋ : ℤ)
  | x => x

end JSNum

open JSNum

/-- The questionnaire answers stored with a health record (`data`). -/
structure HealthData where
  age : JSNum
  weight : JSNum
  height : JSNum
  exercise : JSNum
  sleep : JSNum
  stress : JSNum
  deriving DecidableEq

/-- Server score: `calculateHealthScoreAlgorithm(data)` of `app/actions/patient.js`. -/
def calculateHealthScoreAlgorithm (data : HealthData) : JSNum :=
  -- BMI calculation
  let heightInMeters := div data.height (fin 100)
  let bmi := div data.weight (mul heightInMeters heightInMeters)
  -- Simple scoring algorithm
  let score := fin 70
  -- Adjust based on BMI (ideal range 18.5-24.9)
  let score :=
    if ge bmi (fin 18.5) && le bmi (fin 24.9) then add score (fin 10)
    else if (ge bmi (fin 17) && lt bmi (fin 18.5)) || (gt bmi (fin 24.9) && le bmi (fin 29.9)) then
      add score (fin 5)
    else sub score (fin 5)
  -- Adjust based on exercise (more is better)
  let score := add score (min (mul data.exercise (fin 2)) (fin 10))
  -- Adjust based on sleep (7-9 hours is ideal)
  let score :=
    if ge data.sleep (fin 7) && le data.sleep (fin 9) then add score (fin 10)
    else if (ge data.sleep (fin 6) && lt data.sleep (fin 7))
        || (gt data.sleep (fin 9) && le data.sleep (fin 10)) then
      add score (fin 5)
    else score
  -- Adjust based on stress (lower is better)
  let score := sub score (min data.stress (fin 10))
  -- Age factor
  let score :=
    if gt data.age (fin 60) then
      sub score (min (floor (div (sub data.age (fin 60)) (fin 5))) (fin 5))
    else score
  -- Ensure score is between 0-100
  max (fin 0) (min (fin 100) (round score))

/-- Client preview: `calculateOptimisticScore(data)` of
`app/(patient)/patient-dashboard/page.js`. -/
def calculateOptimisticScore (data : HealthData) : JSNum :=
  -- BMI calculation
  let heightInMeters := div data.height (fin 100)
  let bmi := div data.weight (mul heightInMeters heightInMeters)
  -- Simple scoring algorithm (same as server)
  let score := fin 70
  -- Adjust based on BMI (ideal range 18.5-24.9)
  let score :=
    if ge bmi (fin 18.5) && le bmi (fin 24.9) then add score (fin 10)
    else if (ge bmi (fin 17) && lt bmi (fin 18.5)) || (gt bmi (fin 24.9) && le bmi (fin 29.9)) then
      add score (fin 5)
    else sub score (fin 5)
  -- Adjust based on exercise (more is better)
  let score := add score (min (mul data.exercise (fin 2)) (fin 10))
  -- Adjust based on sleep (7-9 hours is ideal)
  let score :=
    if ge data.sleep (fin 7) && le data.sleep (fin 9) then add score (fin 10)
    else if (ge data.sleep (fin 6) && lt data.sleep (fin 7))
        || (gt data.sleep (fin 9) && le data.sleep (fin 10)) then
      add score (fin 5)
    else score
  -- Adjust based on stress (lower is better)
  let score := sub score (min data.stress (fin 10))
  -- Ensure score is between 0-100
  max (fin 0) (min (fin 100) (round score))

/-- The `latestHealth` object that `getPatient` returns (`score`, `bmi`, `data`). -/
structure LatestHealth where
  score : JSNum
  date : String
  bmi : JSNum
  data : Option HealthData
  deriving DecidableEq

/-- One formatted record of `getHealthHistory` (`id`, `score`, `date`, `bmi`, `data`). -/
structure HistoryRecord where
  id : String
  score : JSNum
  date : String
  bmi : JSNum
  data : Option HealthData
  deriving DecidableEq

/-- One entry of the `healthMetrics` state: a score and its colour. -/
structure Metric where
  score : JSNum
  color : String
  deriving DecidableEq

/-- The `healthMetrics` state of the patient dashboard. -/
structure HealthMetrics where
  heartHealth : Metric
  respiratory : Metric
  metabolic : Metric
  skeletal : Metric
  deriving DecidableEq

/-- The initial value given to `useState` for `healthMetrics`. -/
def initialHealthMetrics : HealthMetrics :=
  { heartHealth := { score := fin 85, color := "teal" },
    respiratory := { score := fin 75, color := "teal" },
    metabolic := { score := fin 68, color := "yellow" },
    skeletal := { score := fin 90, color := "green" } }

/-- The empty object `{}` read as answers: every field is `undefined`. -/
def emptyData : HealthData :=
  { age := nan, weight := nan, height := nan, exercise := nan, sleep := nan, stress := nan }

/-- The `data` of `calculateHealthMetrics`:
`(historyRecords.length > 0 ? historyRecords[0] : null)?.data || {}`. -/
def latestRecordData (historyRecords : List HistoryRecord) : HealthData :=
  match historyRecords with
  | [] => emptyData
  | latestRecord :: _ => latestRecord.data.getD emptyData

/-- The value of `historyRecords[1]?.data?.exercise || 0`. -/
def previousExercise (historyRecords : List HistoryRecord) : JSNum :=
  let exercise : JSNum :=
    match historyRecords[1]? with
    | none => nan
    | some record =>
      match record.data with
      | none => nan
      | some d => d.exercise
  orElse exercise (fin 0)

/-- The variable `heartScore` of `calculateHealthMetrics` before the final clamp. -/
def heartScore (data : HealthData) (historyRecords : List HistoryRecord) : JSNum :=
  let heartScore := fin 75
  let heartScore :=
    if truthy data.exercise then add heartScore (min (mul data.exercise (fin 3)) (fin 15))
    else heartScore
  let heartScore :=
    if truthy data.age then
      sub heartScore (min (floor (div (sub data.age (fin 30)) (fin 10))) (fin 10))
    else heartScore
  -- Track improvement in heart health over time using history
  if historyRecords.length ≥ 2 then
    if gt data.exercise (previousExercise historyRecords) then add heartScore (fin 5)
    else heartScore
  else heartScore

/-- The variable `respiratoryScore` of `calculateHealthMetrics` before the final clamp. -/
def respiratoryScore (data : HealthData) : JSNum :=
  let respiratoryScore := fin 70
  let respiratoryScore :=
    if truthy data.exercise then add respiratoryScore (min (mul data.exercise (fin 2)) (fin 10))
    else respiratoryScore
  let respiratoryScore :=
    if truthy data.stress then sub respiratoryScore (min data.stress (fin 10))
    else respiratoryScore
  -- Sleep impacts respiratory health
  if ge data.sleep (fin 7) && le data.sleep (fin 9) then add respiratoryScore (fin 10)
  else respiratoryScore

/-- The variable `metabolicScore` of `calculateHealthMetrics` before the final clamp. -/
def metabolicScore (latestHealth : LatestHealth) (data : HealthData) : JSNum :=
  let metabolicScore := fin 70
  let bmi := latestHealth.bmi
  let metabolicScore :=
    if truthy bmi then
      if ge bmi (fin 18.5) && le bmi (fin 24.9) then add metabolicScore (fin 20)
      else if (ge bmi (fin 17) && lt bmi (fin 18.5)) || (gt bmi (fin 24.9) && le bmi (fin 29.9)) then
        add metabolicScore (fin 10)
      else if gt bmi (fin 35) then sub metabolicScore (fin 10)
      else metabolicScore
    else metabolicScore
  -- Exercise also impacts metabolic health
  if ge data.exercise (fin 3) then add metabolicScore (fin 5) else metabolicScore

/-- The variable `skeletalScore` of `calculateHealthMetrics` before the final clamp. -/
def skeletalScore (latestHealth : LatestHealth) (data : HealthData) : JSNum :=
  let skeletalScore := fin 70
  let bmi := latestHealth.bmi
  let skeletalScore :=
    if truthy data.exercise then add skeletalScore (min (mul data.exercise (fin 3)) (fin 15))
    else skeletalScore
  let skeletalScore :=
    if gt data.age (fin 50) then
      sub skeletalScore (min (floor (div (sub data.age (fin 50)) (fin 5))) (fin 10))
    else skeletalScore
  -- Weight impacts skeletal health (too low or too high can be issues)
  if truthy bmi then
    if lt bmi (fin 18.5) then sub skeletalScore (fin 5)
    else if gt bmi (fin 30) then sub skeletalScore (fin 5)
    else skeletalScore
  else skeletalScore

/-- Colour of a metric: `getMetricColor(score)`. -/
def getMetricColor (score : JSNum) : String :=
  if ge score (fin 85) then "green"
  else if ge score (fin 75) then "teal"
  else if ge score (fin 65) then "blue"
  else "yellow"

/-- The final `Math.max(0, Math.min(100, Math.round(score)))` shared by all scores. -/
def clampScore (score : JSNum) : JSNum :=
  max (fin 0) (min (fin 100) (round score))

/-- The dashboard routine `calculateHealthMetrics(latestHealth, historyRecords)` of
`app/patient/patient-dashboard/page.js`, as a function of the `healthMetrics` state: the
state is returned unchanged when `latestHealth` is null, and replaced by the four clamped
scores (`setHealthMetrics`) otherwise. -/
def calculateHealthMetrics (healthMetrics : HealthMetrics) (latestHealth : Option LatestHealth)
    (historyRecords : List HistoryRecord) : HealthMetrics :=
  match latestHealth with
  | none => healthMetrics
  | some latestHealth =>
    -- Get latest health record data
    let data := latestRecordData historyRecords
    -- Ensure all scores are within 0-100 range
    let heartScore := clampScore (heartScore data historyRecords)
    let respiratoryScore := clampScore (respiratoryScore data)
    let metabolicScore := clampScore (metabolicScore latestHealth data)
    let skeletalScore := clampScore (skeletalScore latestHealth data)
    { heartHealth := { score := heartScore, color := getMetricColor heartScore },
      respiratory := { score := respiratoryScore, color := getMetricColor respiratoryScore },
      metabolic := { score := metabolicScore, color := getMetricColor metabolicScore },
      skeletal := { score := skeletalScore, color := getMetricColor skeletalScore } }

/-- The record built from six finite answers, in the order of the questionnaire. -/
def mkData (age weight height exercise sleep stress : ℚ) : HealthData :=
  { age := fin age, weight := fin weight, height := fin height,
    exercise := fin exercise, sleep := fin sleep, stress := fin stress }

/-! ## The formulas in the words of the specification -/

/-- Spec §3, BMI value: `weight / (height/100)²`. -/
def specBMI (weight height : ℚ) : ℚ := weight / (height / 100) ^ 2

/-- Spec §4.1, BMI adjustment: `+10` if BMI∈[18.5,24.9]; `+5` if BMI∈[17,18.5) ∪ (24.9,29.9];
`−5` otherwise. -/
def specBmiAdjustment (bmi : ℚ) : ℚ :=
  if 18.5 ≤ bmi ∧ bmi ≤ 24.9 then 10
  else if (17 ≤ bmi ∧ bmi < 18.5) ∨ (24.9 < bmi ∧ bmi ≤ 29.9) then 5
  else -5

/-- Spec §4.1, exercise adjustment: `min(exerciseDaysPerWeek × 2, 10)`. -/
def specExerciseAdjustment (exercise : ℚ) : ℚ := Min.min (exercise * 2) 10

/-- Spec §4.1, sleep adjustment: `+10` if sleepHours∈[7,9]; `+5` if sleepHours∈[6,7) ∪ (9,10];
`+0` otherwise. -/
def specSleepAdjustment (sleep : ℚ) : ℚ :=
  if 7 ≤ sleep ∧ sleep ≤ 9 then 10
  else if (6 ≤ sleep ∧ sleep < 7) ∨ (9 < sleep ∧ sleep ≤ 10) then 5
  else 0

/-- Spec §4.1, stress adjustment (subtracted): `min(stressLevel, 10)`. -/
def specStressAdjustment (stress : ℚ) : ℚ := Min.min stress 10

/-- Spec §4.1, age adjustment (subtracted): if age>60, `min(floor((age−60)/5), 5)`. -/
def specAgeAdjustment (age : ℚ) : ℤ :=
  if 60 < age then Min.min ⌊(age - 60) / 5⌋ 5 else 0

/-- Spec §4.1: clamp to [0,100] of the value rounded to the nearest integer. -/
def specClampRound (x : ℚ) : ℤ := Max.max 0 (Min.min 100 (round x))

/-- The sum of the preview variant before rounding and clamping (no age term). -/
def specPreviewSum (weight height exercise sleep stress : ℚ) : ℚ :=
  70 + specBmiAdjustment (specBMI weight height) + specExerciseAdjustment exercise
    + specSleepAdjustment sleep - specStressAdjustment stress

/-- The sum of the full algorithm before rounding and clamping. -/
def specFinalSum (age weight height exercise sleep stress : ℚ) : ℚ :=
  70 + specBmiAdjustment (specBMI weight height) + specExerciseAdjustment exercise
    + specSleepAdjustment sleep - specStressAdjustment stress - specAgeAdjustment age

/-- Spec §4.1, `finalScore`: the full algorithm, with the age term. -/
def specFinalScore (age weight height exercise sleep stress : ℚ) : ℤ :=
  specClampRound (specFinalSum age weight height exercise sleep stress)

/-- Spec §4.1, `previewScore`: the optimistic variant, without the age term. -/
def specPreviewScore (weight height exercise sleep stress : ℚ) : ℤ :=
  specClampRound (specPreviewSum weight height exercise sleep stress)

/-- Spec §7, the error taxonomy of the engine. -/
inductive EngineError where
  | InvalidInput
  | InsufficientHistory
  deriving DecidableEq

/-- Spec §4.1 and §8, `computeOverallScore` with its stated precondition: it fails with
`InvalidInput` when the height or the weight is not positive, else gives `finalScore`. -/
def specComputeOverallScore (age weight height exercise sleep stress : ℚ) :
    Except EngineError ℤ :=
  if height ≤ 0 ∨ weight ≤ 0 then Except.error EngineError.InvalidInput
  else Except.ok (specFinalScore age weight height exercise sleep stress)

/-- Spec §3, the valid assessment inputs: weight and height positive, exercise an integer in
0..7, sleep non-negative, stress an integer in 1..10 (the age is an integer ≥ 0 by type). -/
def ValidInput (weight height sleep : ℚ) (exercise stress : ℕ) : Prop :=
  0 < weight ∧ 0 < height ∧ exercise ≤ 7 ∧ 0 ≤ sleep ∧ 1 ≤ stress ∧ stress ≤ 10

/-- Spec §4.1, heart, age term (subtracted): `min(floor((age−30)/10), 10)` when age>30. -/
def specHeartAgePenalty (age : ℚ) : ℤ :=
  if 30 < age then Min.min ⌊(age - 30) / 10⌋ 10 else 0

/-- Spec §4.1, heart, trend term: `+5` if there are at least two history entries and the
exercise improved on the immediately preceding record. -/
def specHeartTrend (entries : ℕ) (exercise previous : ℚ) : ℚ :=
  if 2 ≤ entries ∧ previous < exercise then 5 else 0

/-- Spec §4.1, heart: base 75, `+min(exercise×3,15)`, less the age term, plus the trend term,
clamped to [0,100] and rounded. -/
def specHeartHealth (exercise age : ℚ) (entries : ℕ) (previous : ℚ) : ℤ :=
  specClampRound (75 + Min.min (exercise * 3) 15 - specHeartAgePenalty age
    + specHeartTrend entries exercise previous)

/-- Spec §4.1, respiratory: base 70, `+min(exercise×2,10)`; `−min(stress,10)`; `+10` if
sleep∈[7,9]; clamped to [0,100] and rounded. -/
def specRespiratory (exercise stress sleep : ℚ) : ℤ :=
  specClampRound (70 + Min.min (exercise * 2) 10 - Min.min stress 10
    + (if 7 ≤ sleep ∧ sleep ≤ 9 then 10 else 0))

/-- A history record holding the given answers (its other fields are left empty). -/
def recordOf (data : HealthData) : HistoryRecord :=
  { id := "", score := nan, date := "", bmi := nan, data := some data }

/-- Answers of which only the exercise field is present: `{exercise: e}`. -/
def exerciseOnly (exercise : ℚ) : HealthData :=
  { emptyData with exercise := fin exercise }

/-- A `latestHealth` object holding the given answers (its other fields are left empty). -/
def latestOf (data : HealthData) : LatestHealth :=
  { score := nan, date := "", bmi := nan, data := some data }

/-- Spec §4.1, metabolic, BMI term: `+20` if BMI∈[18.5,24.9]; `+10` if
BMI∈[17,18.5)∪(24.9,29.9]; `−10` if BMI>35; nothing otherwise. -/
def specMetabolicBmiTerm (bmi : ℚ) : ℚ :=
  if 18.5 ≤ bmi ∧ bmi ≤ 24.9 then 20
  else if (17 ≤ bmi ∧ bmi < 18.5) ∨ (24.9 < bmi ∧ bmi ≤ 29.9) then 10
  else if 35 < bmi then -10
  else 0

/-- Spec §4.1, metabolic: base 70, the BMI term, `+5` if exercise≥3; clamped to [0,100] and
rounded. -/
def specMetabolic (bmi exercise : ℚ) : ℤ :=
  specClampRound (70 + specMetabolicBmiTerm bmi + (if 3 ≤ exercise then 5 else 0))

/-- Spec §4.1, skeletal, age term (subtracted): `min(floor((age−50)/5), 10)` when age>50. -/
def specSkeletalAgePenalty (age : ℚ) : ℤ :=
  if 50 < age then Min.min ⌊(age - 50) / 5⌋ 10 else 0

/-- Spec §4.1, skeletal, weight term (subtracted): `5` if BMI<18.5, `5` if BMI>30. -/
def specSkeletalBmiPenalty (bmi : ℚ) : ℚ :=
  if bmi < 18.5 ∨ 30 < bmi then 5 else 0

/-- Spec §4.1, skeletal: base 70, `+min(exercise×3,15)`, less the age term and the weight
term; clamped to [0,100] and rounded. -/
def specSkeletal (bmi exercise age : ℚ) : ℤ :=
  specClampRound (70 + Min.min (exercise * 3) 15 - specSkeletalAgePenalty age
    - specSkeletalBmiPenalty bmi)

/-- A field that is a number (finite) or is absent. -/
def FiniteOrAbsent (x : JSNum) : Prop := x = nan ∨ ∃ q : ℚ, x = fin q

/-- A history record with numeric fields: its answers are present and all six are finite
numbers. -/
def NumericRecord (record : HistoryRecord) : Prop :=
  ∃ d : HealthData, record.data = some d ∧
    ∃ age weight height exercise sleep stress : ℚ,
      d = mkData age weight height exercise sleep stress

/-- An integer score between 0 and 100. -/
def IsScore (x : JSNum) : Prop := ∃ n : ℤ, 0 ≤ n ∧ n ≤ 100 ∧ x = fin n

/-- A history record that carries no answers (`data: null`). -/
def recordWithoutData : HistoryRecord :=
  { id := "", score := nan, date := "", bmi := nan, data := none }

/-! ## The patient and health-record stores

The server actions of `app/actions/patient.js` act on two collections. Documents are
identified by natural numbers, creation dates are millisecond timestamps, and every
database operation is assumed to succeed (no connection or validation error is modelled). -/

/-- A document of the `Patient` collection. -/
structure Patient where
  _id : ℕ
  clerkId : String
  name : String
  email : String
  latestHealthScore : Option ℕ
  deriving DecidableEq

/-- A document of the `Health` collection; `bmi` stands for `metrics?.bmi`. -/
structure Health where
  _id : ℕ
  patient : ℕ
  score : JSNum
  data : Option HealthData
  bmi : JSNum
  createdAt : ℕ
  deriving DecidableEq

/-- The state of the database: the two collections, in insertion order. -/
structure Store where
  patients : List Patient
  healths : List Health
  deriving DecidableEq

/-- The identifier given to a new document: one that no document of the collection has. -/
def nextId (ids : List ℕ) : ℕ := ids.foldr Nat.max 0 + 1

/-- The text of a creation date (`toISOString()`): dates are modelled by their timestamp, and
the text is its decimal form. -/
def toISOString (createdAt : ℕ) : String := toString createdAt

/-- `Patient.findOne({ clerkId: userId })`: the first patient with that Clerk identity. -/
def findPatient (patients : List Patient) (userId : String) : Option Patient :=
  patients.find? (fun p => decide (p.clerkId = userId))

/-- `Health.findById(id)`: the first health record with that identifier. -/
def findHealthById (healths : List Health) (id : ℕ) : Option Health :=
  healths.find? (fun h => decide (h._id = id))

/-- `patient.save()`: replaces the stored document of the same `_id`, or inserts the
document when there is none. -/
def savePatient (patients : List Patient) (patient : Patient) : List Patient :=
  if patients.any (fun q => decide (q._id = patient._id)) then
    patients.map (fun q => if q._id = patient._id then patient else q)
  else patients ++ [patient]

/-- The patient the actions create for an unknown Clerk identity:
`new Patient({ clerkId: userId, name: "User", email: "user@example.com" })`. -/
def newPatient (patients : List Patient) (userId : String) : Patient :=
  { _id := nextId (patients.map (fun p => p._id)), clerkId := userId, name := "User",
    email := "user@example.com", latestHealthScore := none }

/-- The `patient` object of a response (`id`, `name`, `email`). -/
structure PatientInfo where
  id : String
  name : String
  email : String
  deriving DecidableEq

/-- The `health` object of the response of `calculateHealthScore`. -/
structure HealthInfo where
  id : String
  score : JSNum
  date : String
  bmi : JSNum
  deriving DecidableEq

/-- The response of `getPatient`. -/
inductive PatientResponse where
  | failure (error : String)
  | success (patient : PatientInfo) (latestHealth : Option LatestHealth)
  deriving DecidableEq

/-- The response of `calculateHealthScore`. -/
inductive ScoreResponse where
  | failure (error : String)
  | success (score : JSNum) (health : HealthInfo)
  deriving DecidableEq

/-- The response of `getHealthHistory`. -/
inductive HistoryResponse where
  | failure (error : String)
  | success (records : List HistoryRecord)
  deriving DecidableEq

/-- The response of `updatePatientProfile`. -/
inductive ProfileResponse where
  | failure (error : String)
  | success (patient : PatientInfo)
  deriving DecidableEq

/-- The test `!userId`: the identity is undefined, null (`none`) or the empty string. -/
def notAuthenticated (userId : Option String) : Bool :=
  match userId with
  | none => true
  | some id => decide (id = "")

/-- The `latestHealth` object built from a health record by `getPatient`. -/
def formatLatestHealth (latestHealth : Health) : LatestHealth :=
  { score := latestHealth.score, date := toISOString latestHealth.createdAt,
    bmi := latestHealth.bmi, data := latestHealth.data }

/-- Server action `getPatient(userId)`: the response and the database afterwards. -/
def getPatient (store : Store) (userId : Option String) : PatientResponse × Store :=
  if notAuthenticated userId then
    (PatientResponse.failure "Not authenticated", store)
  else
    let userId := userId.getD ""
    -- If patient doesn't exist yet, create one
    let (patient, store) :=
      match findPatient store.patients userId with
      | some patient => (patient, store)
      | none =>
        let patient := newPatient store.patients userId
        (patient, { store with patients := savePatient store.patients patient })
    -- Get latest health record if exists
    let latestHealth : Option Health :=
      match patient.latestHealthScore with
      | some id => findHealthById store.healths id
      | none => none
    (PatientResponse.success
        { id := toString patient._id, name := patient.name, email := patient.email }
        (latestHealth.map formatLatestHealth),
      store)

/-- Server action `calculateHealthScore(data, userId)`, run at time `now`: the response and
the database afterwards. -/
def calculateHealthScore (store : Store) (data : HealthData) (userId : Option String)
    (now : ℕ) : ScoreResponse × Store :=
  if notAuthenticated userId then
    (ScoreResponse.failure "Not authenticated", store)
  else
    let userId := userId.getD ""
    -- Find patient, create patient if not exists
    let (patient, store) :=
      match findPatient store.patients userId with
      | some patient => (patient, store)
      | none =>
        let patient := newPatient store.patients userId
        (patient, { store with patients := savePatient store.patients patient })
    -- Calculate health score
    let score := calculateHealthScoreAlgorithm data
    -- Create health record
    let health : Health :=
      { _id := nextId (store.healths.map (fun h => h._id)), patient := patient._id,
        score := score, data := some data, bmi := nan, createdAt := now }
    let store := { store with healths := store.healths ++ [health] }
    -- Update patient with latest health score
    let patient := { patient with latestHealthScore := some health._id }
    let store := { store with patients := savePatient store.patients patient }
    (ScoreResponse.success score
        { id := toString health._id, score := health.score,
          date := toISOString health.createdAt, bmi := health.bmi },
      store)

/-- The first argument of `getHealthHistory` as a caller passes it. -/
inductive LimitArg where
  /-- No argument (`undefined`): the default `limit = 10` applies. -/
  | omitted
  /-- A non-negative integer. -/
  | count (n : ℕ)
  /-- A string that is not a number, which the query layer rejects. -/
  | text (s : String)
  deriving DecidableEq

/-- The query option `.limit(n)`: at most `n` documents, all of them when `n` is 0. -/
def limitDocs (n : ℕ) (docs : List Health) : List Health :=
  if n = 0 then docs else docs.take n

/-- The query `Health.find({ patient: id }).sort({ createdAt: -1 })`: the records of the
patient, newest first. -/
def findHealthSorted (healths : List Health) (patientId : ℕ) : List Health :=
  (healths.filter (fun h => decide (h.patient = patientId))).insertionSort
    (fun a b => b.createdAt ≤ a.createdAt)

/-- The record sent to the client for a health document (`formattedRecords`). -/
def formatRecord (record : Health) : HistoryRecord :=
  { id := toString record._id, score := record.score, date := toISOString record.createdAt,
    bmi := record.bmi, data := record.data }

/-- Server action `getHealthHistory(limit = 10, userId)`: the response and the database
afterwards (the action writes nothing). -/
def getHealthHistory (store : Store) (limit : LimitArg) (userId : Option String) :
    HistoryResponse × Store :=
  if notAuthenticated userId then
    (HistoryResponse.failure "Not authenticated", store)
  else
    let userId := userId.getD ""
    match findPatient store.patients userId with
    | none => (HistoryResponse.success [], store)
    | some patient =>
      match limit with
      | LimitArg.text _ => (HistoryResponse.failure "Failed to fetch health history", store)
      | LimitArg.omitted =>
        (HistoryResponse.success
          ((limitDocs 10 (findHealthSorted store.healths patient._id)).map formatRecord), store)
      | LimitArg.count n =>
        (HistoryResponse.success
          ((limitDocs n (findHealthSorted store.healths patient._id)).map formatRecord), store)

/-- The profile fields that `updatePatientProfile` receives; an absent field is left as
it is by `Object.assign`. -/
structure ProfileData where
  name : Option String
  email : Option String
  deriving DecidableEq

/-- Server action `updatePatientProfile(profileData, userId)`: the response and the
database afterwards. -/
def updatePatientProfile (store : Store) (profileData : ProfileData)
    (userId : Option String) : ProfileResponse × Store :=
  if notAuthenticated userId then
    (ProfileResponse.failure "Not authenticated", store)
  else
    let userId := userId.getD ""
    match findPatient store.patients userId with
    | none => (ProfileResponse.failure "Patient not found", store)
    | some patient =>
      -- Update patient data
      let patient :=
        { patient with
          name := profileData.name.getD patient.name,
          email := profileData.email.getD patient.email }
      (ProfileResponse.success
          { id := toString patient._id, name := patient.name, email := patient.email },
        { store with patients := savePatient store.patients patient })

/-- An example database: one patient with two health records, and a record of another
patient. -/
def exampleStore : Store :=
  { patients :=
      [{ _id := 1, clerkId := "user_1", name := "User", email := "user@example.com",
         latestHealthScore := some 2 }],
    healths :=
      [{ _id := 1, patient := 1, score := fin 97, data := some (mkData 30 70 175 5 8 3),
         bmi := nan, createdAt := 1000 },
       { _id := 2, patient := 1, score := fin 95, data := some (mkData 70 70 175 5 8 3),
         bmi := nan, createdAt := 2000 },
       { _id := 3, patient := 7, score := fin 82, data := some (mkData 30 70 0 5 8 3),
         bmi := nan, createdAt := 1500 }] }

/-- The BMI categories of spec §3. -/
inductive BmiCategory where
  | Underweight
  | Normal
  | Overweight
  | Obese
  deriving DecidableEq

/-- Spec §3, the category of a BMI value: Underweight <18.5, Normal 18.5–24.9, Overweight
25–29.9, Obese ≥30; the spec names no category between these ranges. -/
def specBmiCategory (bmi : ℚ) : Option BmiCategory :=
  if bmi < 18.5 then some BmiCategory.Underweight
  else if 18.5 ≤ bmi ∧ bmi ≤ 24.9 then some BmiCategory.Normal
  else if 25 ≤ bmi ∧ bmi ≤ 29.9 then some BmiCategory.Overweight
  else if 30 ≤ bmi then some BmiCategory.Obese
  else none

/-- Spec §4.1, a value rounded to 1 decimal for display. -/
def specRoundOneDecimal (x : ℚ) : ℚ := (round (x * 10) : ℤ) / 10

/-- Modelled from the spec: `calculateBMI` of `lib/healthAssessment`, which the assessment
page imports, is not among the sources. Spec §4.1 `computeBMI`: fails with `InvalidInput`
unless height and weight are positive; the value is `weightKg / (heightCm/100)²`, rounded to
1 decimal for display, with the category of the value per the thresholds of §3. -/
def specComputeBMI (weightKg heightCm : ℚ) : Except EngineError (ℚ × Option BmiCategory) :=
  if 0 < heightCm ∧ 0 < weightKg then
    Except.ok (specRoundOneDecimal (specBMI weightKg heightCm),
      specBmiCategory (specBMI weightKg heightCm))
  else Except.error EngineError.InvalidInput

/-- The variable `score` of `calculateHealthScoreAlgorithm` before the final rounding and
clamp (the statements of the function up to the age factor). -/
def scoreBeforeClamp (data : HealthData) : JSNum :=
  let heightInMeters := div data.height (fin 100)
  let bmi := div data.weight (mul heightInMeters heightInMeters)
  let score := fin 70
  let score :=
    if ge bmi (fin 18.5) && le bmi (fin 24.9) then add score (fin 10)
    else if (ge bmi (fin 17) && lt bmi (fin 18.5)) || (gt bmi (fin 24.9) && le bmi (fin 29.9)) then
      add score (fin 5)
    else sub score (fin 5)
  let score := add score (min (mul data.exercise (fin 2)) (fin 10))
  let score :=
    if ge data.sleep (fin 7) && le data.sleep (fin 9) then add score (fin 10)
    else if (ge data.sleep (fin 6) && lt data.sleep (fin 7))
        || (gt data.sleep (fin 9) && le data.sleep (fin 10)) then
      add score (fin 5)
    else score
  let score := sub score (min data.stress (fin 10))
  if gt data.age (fin 60) then
    sub score (min (floor (div (sub data.age (fin 60)) (fin 5))) (fin 5))
  else score

/-- The variable `score` of `calculateOptimisticScore` before the final rounding and clamp. -/
def optimisticScoreBeforeClamp (data : HealthData) : JSNum :=
  let heightInMeters := div data.height (fin 100)
  let bmi := div data.weight (mul heightInMeters heightInMeters)
  let score := fin 70
  let score :=
    if ge bmi (fin 18.5) && le bmi (fin 24.9) then add score (fin 10)
    else if (ge bmi (fin 17) && lt bmi (fin 18.5)) || (gt bmi (fin 24.9) && le bmi (fin 29.9)) then
      add score (fin 5)
    else sub score (fin 5)
  let score := add score (min (mul data.exercise (fin 2)) (fin 10))
  let score :=
    if ge data.sleep (fin 7) && le data.sleep (fin 9) then add score (fin 10)
    else if (ge data.sleep (fin 6) && lt data.sleep (fin 7))
        || (gt data.sleep (fin 9) && le data.sleep (fin 10)) then
      add score (fin 5)
    else score
  sub score (min data.stress (fin 10))

/-! ## The health dashboard of `app/(patient)/patient-dashboard/page.js` -/

/-- One entry of `questions`: the key of the answer and the declared range of the input. -/
structure Question where
  id : String
  text : String
  min : ℕ
  max : ℕ
  deriving DecidableEq

/-- The `questions` of the dashboard's health assessment. -/
def questions : List Question :=
  [{ id := "age", text := "What is your age?", min := 18, max := 120 },
   { id := "weight", text := "What is your weight in kg?", min := 30, max := 300 },
   { id := "height", text := "What is your height in cm?", min := 100, max := 250 },
   { id := "exercise", text := "How many days per week do you exercise?", min := 0, max := 7 },
   { id := "sleep", text := "How many hours do you sleep on average?", min := 1, max := 16 },
   { id := "stress",
     text := "On a scale of 1-10, how would you rate your stress level?", min := 1, max := 10 }]

/-- The value `answers[id]`; a key that was never set reads as `undefined`. -/
def answerOf (answers : HealthData) (id : String) : JSNum :=
  if id = "age" then answers.age
  else if id = "weight" then answers.weight
  else if id = "height" then answers.height
  else if id = "exercise" then answers.exercise
  else if id = "sleep" then answers.sleep
  else if id = "stress" then answers.stress
  else nan

/-- The object `{ ...answers, [id]: value }`, for the keys of the questionnaire. -/
def setAnswer (answers : HealthData) (id : String) (value : JSNum) : HealthData :=
  if id = "age" then { answers with age := value }
  else if id = "weight" then { answers with weight := value }
  else if id = "height" then { answers with height := value }
  else if id = "exercise" then { answers with exercise := value }
  else if id = "sleep" then { answers with sleep := value }
  else if id = "stress" then { answers with stress := value }
  else answers

/-- The state of the `Dashboard` component. -/
structure Dashboard where
  patientData : Option PatientResponse
  isLoading : Bool
  showQuestions : Bool
  currentQuestion : ℕ
  answers : HealthData
  healthScore : Option JSNum
  isCalculating : Bool
  optimisticScore : Option JSNum
  healthHistory : List HistoryRecord
  deriving DecidableEq

/-- The initial values given to `useState` in `Dashboard`. -/
def initialDashboard : Dashboard :=
  { patientData := none, isLoading := true, showQuestions := false, currentQuestion := 0,
    answers := emptyData, healthScore := none, isCalculating := false,
    optimisticScore := none, healthHistory := [] }

/-- The first argument of the call `getHealthHistory(userId)`: the identity lands in the
`limit` parameter. -/
def limitOfUserId (userId : Option String) : LimitArg :=
  match userId with
  | none => LimitArg.omitted
  | some id => LimitArg.text id

/-- The effect `loadData()` run when the component mounts: `getPatient(userId)`, then
`getHealthHistory()` without arguments. -/
def loadData (st : Dashboard) (store : Store) (userId : Option String) : Dashboard × Store :=
  let st := { st with isLoading := true }
  -- Get patient data
  let (patientResponse, store) := getPatient store userId
  let st :=
    match patientResponse with
    | PatientResponse.success _ latestHealth =>
      let st := { st with patientData := some patientResponse }
      match latestHealth with
      | some latestHealth => { st with healthScore := some latestHealth.score }
      | none => st
    | PatientResponse.failure _ => st
  -- Get health history
  let (historyResponse, store) := getHealthHistory store LimitArg.omitted none
  let st :=
    match historyResponse with
    | HistoryResponse.success records => { st with healthHistory := records }
    | HistoryResponse.failure _ => st
  ({ st with isLoading := false }, store)

/-- The handler `handleStartAssessment`. -/
def handleStartAssessment (st : Dashboard) : Dashboard :=
  { st with showQuestions := true, currentQuestion := 0, answers := emptyData }

/-- The handler `handleAnswerChange`, with `value` the result of `parseInt(e.target.value)`. -/
def handleAnswerChange (st : Dashboard) (value : JSNum) : Dashboard :=
  match questions[st.currentQuestion]? with
  | some question => { st with answers := setAnswer st.answers question.id value }
  | none => st

/-- `submitHealthData()`: sends the answers with `calculateHealthScore(answers, userId)` and,
on success, stores the score and calls `getHealthHistory(userId)`. -/
def submitHealthData (st : Dashboard) (store : Store) (userId : Option String) (now : ℕ) :
    Dashboard × Store :=
  let st := { st with isCalculating := true }
  -- Send data to server using server action
  let (result, store) := calculateHealthScore store st.answers userId now
  let (st, store) :=
    match result with
    | ScoreResponse.success score _ =>
      -- Update with actual score from server
      let st := { st with healthScore := some score }
      -- Refresh health history
      let (historyResponse, store) := getHealthHistory store (limitOfUserId userId) none
      match historyResponse with
      | HistoryResponse.success records => ({ st with healthHistory := records }, store)
      | HistoryResponse.failure _ => (st, store)
    | ScoreResponse.failure _ => (st, store)
  ({ st with isCalculating := false, showQuestions := false }, store)

/-- The handler `handleNextQuestion`. -/
def handleNextQuestion (st : Dashboard) (store : Store) (userId : Option String) (now : ℕ) :
    Dashboard × Store :=
  if st.currentQuestion < questions.length - 1 then
    ({ st with currentQuestion := st.currentQuestion + 1 }, store)
  else
    -- Calculate optimistic score locally for immediate feedback
    let score := calculateOptimisticScore st.answers
    let st := { st with optimisticScore := some score }
    -- Submit data to server
    submitHealthData st store userId now

/-- Whether the Next / Calculate Score button is enabled: the negation of
`disabled={!answers[questions[currentQuestion].id]}`. -/
def nextEnabled (st : Dashboard) : Bool :=
  match questions[st.currentQuestion]? with
  | some question => truthy (answerOf st.answers question.id)
  | none => false

/-- What the user can do on the dashboard. -/
inductive DashboardEvent where
  /-- A click on Get Your Health Score or Retake Assessment. -/
  | startAssessment
  /-- An input in the field of the current question, parsed by `parseInt`. -/
  | answerChange (value : JSNum)
  /-- A click on Next or Calculate Score, at time `now`. -/
  | next (now : ℕ)
  /-- A click on Back. -/
  | back

/-- A run of the dashboard: its state, the database, and the answers sent to the server so
far (the arguments of the calls of `calculateHealthScore`, oldest first). -/
structure Session where
  dashboard : Dashboard
  store : Store
  submissions : List HealthData

/-- The effect of one event: a control acts only while it is rendered (the start buttons
while the questions are hidden, the input and the Next and Back buttons while they are shown,
Back from the second question on) and the Next button only while it is enabled. -/
def dashboardStep (userId : Option String) (s : Session) (event : DashboardEvent) : Session :=
  match event with
  | DashboardEvent.startAssessment =>
    if s.dashboard.showQuestions then s
    else { s with dashboard := handleStartAssessment s.dashboard }
  | DashboardEvent.answerChange value =>
    if s.dashboard.showQuestions then
      { s with dashboard := handleAnswerChange s.dashboard value }
    else s
  | DashboardEvent.next now =>
    if s.dashboard.showQuestions && nextEnabled s.dashboard then
      { dashboard := (handleNextQuestion s.dashboard s.store userId now).1,
        store := (handleNextQuestion s.dashboard s.store userId now).2,
        submissions :=
          if s.dashboard.currentQuestion < questions.length - 1 then s.submissions
          else s.submissions ++ [s.dashboard.answers] }
    else s
  | DashboardEvent.back =>
    if s.dashboard.showQuestions && decide (s.dashboard.currentQuestion > 0) then
      { s with
        dashboard := { s.dashboard with currentQuestion := s.dashboard.currentQuestion - 1 } }
    else s

/-- The status text chosen by `renderHealthScore` for a score; nothing is rendered when the
score is falsy. -/
def renderHealthScoreStatus (score : JSNum) : Option String :=
  if !truthy score then none
  else if ge score (fin 80) then some "Excellent"
  else if ge score (fin 60) then some "Good"
  else if lt score (fin 50) then some "Needs Improvement"
  else some "Average"

/-! ## The patient dashboard of `app/patient/patient-dashboard/page.js`: status text -/

/-- The colour and status text of a score: `getScoreDetails(score)`. -/
def getScoreDetails (score : JSNum) : String × String :=
  if ge score (fin 80) then ("text-green-500", "Excellent")
  else if ge score (fin 70) then ("text-teal-500", "Good")
  else if ge score (fin 60) then ("text-blue-500", "Average")
  else ("text-yellow-500", "Needs Improvement")

/-! ## The multi-step assessment of `app/health-assessment/page.js` -/

/-- One entry of `categories`. -/
structure Category where
  id : String
  name : String
  deriving DecidableEq

/-- The `categories` of the assessment, one per step. -/
def categories : List Category :=
  [{ id := "basicInfo", name := "Basic Information" },
   { id := "physicalHealth", name := "Physical Health" },
   { id := "mentalHealth", name := "Mental Health" },
   { id := "nutritionHealth", name := "Nutrition" },
   { id := "sleepHealth", name := "Sleep Quality" }]

/-- The part of the state of `HealthAssessment` that the step handlers touch: the step index
and the number of times `calculateResults` was called. The answers, results and flags do not
enter the step handlers' tests. -/
structure Assessment where
  step : ℤ
  calculateResultsCalls : ℕ
  deriving DecidableEq

/-- The initial state: `useState(0)` for the step. -/
def initialAssessment : Assessment := { step := 0, calculateResultsCalls := 0 }

/-- The call `calculateResults()`, which never sets the step. -/
def calculateResults (st : Assessment) : Assessment :=
  { st with calculateResultsCalls := st.calculateResultsCalls + 1 }

/-- The handler `goToNextStep`. -/
def goToNextStep (st : Assessment) : Assessment :=
  if st.step < (categories.length : ℤ) - 1 then { st with step := st.step + 1 }
  else calculateResults st

/-- The handler `goToPreviousStep`. -/
def goToPreviousStep (st : Assessment) : Assessment :=
  if st.step > 0 then { st with step := st.step - 1 } else st

/-- The handler `restartAssessment`. -/
def restartAssessment (st : Assessment) : Assessment :=
  { st with step := 0 }

/-- The three step handlers, as events. -/
inductive AssessmentEvent where
  | goToNextStep
  | goToPreviousStep
  | restartAssessment
  deriving DecidableEq

/-- The effect of one event on the assessment. -/
def assessmentStep (st : Assessment) (event : AssessmentEvent) : Assessment :=
  match event with
  | AssessmentEvent.goToNextStep => goToNextStep st
  | AssessmentEvent.goToPreviousStep => goToPreviousStep st
  | AssessmentEvent.restartAssessment => restartAssessment st

/-- The ranges declared by `questions` for the six inputs of the dashboard (`min`, `max`),
all of them integers: age 18..120, weight 30..300, height 100..250, exercise 0..7,
sleep 1..16, stress 1..10. -/
def InQuestionRanges (age weight height exercise sleep stress : ℕ) : Prop :=
  (18 ≤ age ∧ age ≤ 120) ∧ (30 ≤ weight ∧ weight ≤ 300) ∧ (100 ≤ height ∧ height ≤ 250) ∧
    exercise ≤ 7 ∧ (1 ≤ sleep ∧ sleep ≤ 16) ∧ (1 ≤ stress ∧ stress ≤ 10)

/-- The invariant of a run of the dashboard: every set of answers sent to the server has a
truthy exercise answer, and while the questions are shown the index of the current question
is at most 5 and, past the exercise question (index 3), the exercise answer is truthy. -/
def QuestionnaireInvariant (s : Session) : Prop :=
  (∀ data ∈ s.submissions, truthy data.exercise = true) ∧
  (s.dashboard.showQuestions = true →
    s.dashboard.currentQuestion ≤ 5 ∧
    (3 < s.dashboard.currentQuestion → truthy s.dashboard.answers.exercise = true))

/-- The events of a complete assessment: start, then each of the six answers followed by a
click on Next (the last one on Calculate Score, at time `now`). -/
def completeAssessment (age weight height exercise sleep stress : ℚ) (now : ℕ) :
    List DashboardEvent :=
  [DashboardEvent.startAssessment,
   DashboardEvent.answerChange (fin age), DashboardEvent.next now,
   DashboardEvent.answerChange (fin weight), DashboardEvent.next now,
   DashboardEvent.answerChange (fin height), DashboardEvent.next now,
   DashboardEvent.answerChange (fin exercise), DashboardEvent.next now,
   DashboardEvent.answerChange (fin sleep), DashboardEvent.next now,
   DashboardEvent.answerChange (fin stress), DashboardEvent.next now]

/-- The value read from a field that holds the number `q` (`some q`) or is absent (`none`). -/
def fieldValue : Option ℚ → JSNum
  | some q => fin q
  | none => nan

/-- The exercise term that `calculateHealthMetrics` adds to the heart score:
`min(exercise × 3, 15)`, nothing for an absent exercise. -/
def heartExerciseTerm : Option ℚ → ℚ
  | some e => Min.min (e * 3) 15
  | none => 0

/-- The age term that `calculateHealthMetrics` subtracts from the heart score under the guard
`if (data.age)`: `min(floor((age − 30)/10), 10)` for a non-zero age, nothing for the age 0 or
an absent age. -/
def heartAgeTerm : Option ℚ → ℚ
  | some a => if a ≠ 0 then ((Min.min ⌊(a - 30) / 10⌋ 10 : ℤ) : ℚ) else 0
  | none => 0

/-- The trend term of the heart score when the previous exercise reads as 0: `5` for an
exercise greater than 0, nothing for an exercise that is 0, negative or absent. -/
def heartTrendTermAgainstZero : Option ℚ → ℚ
  | some e => if 0 < e then 5 else 0
  | none => 0

/-! ## Arithmetic of finite numbers -/

namespace JSNum

@[simp] theorem add_fin (a b : ℚ) : add (fin a) (fin b) = fin (a + b) := rfl

@[simp] theorem sub_fin (a b : ℚ) : sub (fin a) (fin b) = fin (a - b) := by
  simp [sub, neg, add, sub_eq_add_neg]

@[simp] theorem mul_fin (a b : ℚ) : mul (fin a) (fin b) = fin (a * b) := rfl

theorem div_fin (a b : ℚ) (hb : b ≠ 0) : div (fin a) (fin b) = fin (a / b) := by
  simp [div, hb]

@[simp] theorem le_fin (a b : ℚ) : le (fin a) (fin b) = decide (a ≤ b) := rfl

@[simp] theorem lt_fin (a b : ℚ) : lt (fin a) (fin b) = decide (a < b) := rfl

@[simp] theorem ge_fin (a b : ℚ) : ge (fin a) (fin b) = decide (b ≤ a) := rfl

@[simp] theorem gt_fin (a b : ℚ) : gt (fin a) (fin b) = decide (b < a) := rfl

@[simp] theorem truthy_fin (a : ℚ) : truthy (fin a) = decide (a ≠ 0) := rfl

@[simp] theorem min_fin (a b : ℚ) : min (fin a) (fin b) = fin (Min.min a b) := by
  by_cases h : a ≤ b <;> simp [min, le, h]
  exact le_of_lt (lt_of_not_le h)

@[simp] theorem max_fin (a b : ℚ) : max (fin a) (fin b) = fin (Max.max a b) := by
  by_cases h : a ≤ b <;> simp [max, le, h]
  exact le_of_lt (lt_of_not_le h)

@[simp] theorem floor_fin (a : ℚ) : floor (fin a) = fin (⌊a⌋ : ℤ) := rfl

@[simp] theorem round_fin (a : ℚ) : round (fin a) = fin (⌊a + 1 / 2⌋ : ℤ) := rfl

@[simp] theorem ite_fin (c : Prop) [Decidable c] (a b : ℚ) :
    (if c then fin a else fin b) = fin (if c then a else b) := by
  split <;> rfl

end JSNum

/-! ## The two overall scores against the specification -/

/-- Rounding to the nearest integer is `⌊x + 1/2⌋`, as `Math.round` computes it. -/
theorem specClampRound_eq (x : ℚ) :
    specClampRound x = Max.max 0 (Min.min 100 ⌊x + 1 / 2⌋) := by
  unfold specClampRound
  rw [round_eq]

/-- The clamp of the code, on rationals, is the clamp of the spec, on integers. -/
theorem fin_clampRound_congr (a b : ℚ) (hab : a = b) :
    fin (Max.max 0 (Min.min 100 ((⌊a + 1 / 2⌋ : ℤ) : ℚ)))
      = fin ((Max.max 0 (Min.min 100 ⌊b + 1 / 2⌋) : ℤ) : ℚ) := by
  subst hab
  push_cast
  rfl

/-- For a non-zero height and finite answers the server score is the spec's `finalScore`. -/
theorem server_eq_spec (age weight height exercise sleep stress : ℚ) (hh : height ≠ 0) :
    calculateHealthScoreAlgorithm (mkData age weight height exercise sleep stress)
      = fin (specFinalScore age weight height exercise sleep stress) := by
  have h1 : height / 100 ≠ 0 := by positivity
  have h2 : height / 100 * (height / 100) ≠ 0 := mul_ne_zero h1 h1
  simp only [calculateHealthScoreAlgorithm, mkData, div_fin _ _ (by norm_num : (100:ℚ) ≠ 0),
    mul_fin, div_fin _ _ h2]
  simp only [add_fin, sub_fin, mul_fin, le_fin, lt_fin, ge_fin, gt_fin, min_fin, max_fin,
    floor_fin, round_fin, ite_fin, Bool.and_eq_true, Bool.or_eq_true, decide_eq_true_eq,
    div_fin _ _ (by norm_num : (5:ℚ) ≠ 0)]
  rw [specFinalScore, specClampRound_eq]
  have hb : weight / (height / 100 * (height / 100)) = specBMI weight height := by
    rw [specBMI, pow_two]
  rw [hb]
  apply fin_clampRound_congr
  unfold specFinalSum specBmiAdjustment specSleepAdjustment specAgeAdjustment
    specExerciseAdjustment specStressAdjustment
  split_ifs <;> push_cast <;> ring

/-- For a non-zero height and finite answers the client score is the spec's `previewScore`. -/
theorem preview_eq_spec (age weight height exercise sleep stress : ℚ) (hh : height ≠ 0) :
    calculateOptimisticScore (mkData age weight height exercise sleep stress)
      = fin (specPreviewScore weight height exercise sleep stress) := by
  have h1 : height / 100 ≠ 0 := by positivity
  have h2 : height / 100 * (height / 100) ≠ 0 := mul_ne_zero h1 h1
  simp only [calculateOptimisticScore, mkData, div_fin _ _ (by norm_num : (100:ℚ) ≠ 0),
    mul_fin, div_fin _ _ h2]
  simp only [add_fin, sub_fin, mul_fin, le_fin, lt_fin, ge_fin, gt_fin, min_fin, max_fin,
    round_fin, ite_fin, Bool.and_eq_true, Bool.or_eq_true, decide_eq_true_eq]
  rw [specPreviewScore, specClampRound_eq]
  have hb : weight / (height / 100 * (height / 100)) = specBMI weight height := by
    rw [specBMI, pow_two]
  rw [hb]
  apply fin_clampRound_congr
  unfold specPreviewSum specBmiAdjustment specSleepAdjustment
    specExerciseAdjustment specStressAdjustment
  split_ifs <;> ring

/-- The clamped, rounded value is an integer between 0 and 100. -/
theorem specClampRound_range (x : ℚ) : 0 ≤ specClampRound x ∧ specClampRound x ≤ 100 := by
  unfold specClampRound
  constructor
  · exact le_max_left _ _
  · exact max_le (by norm_num) (min_le_left _ _)

/-- Rounding and clamping leave an integer of the range 0..100 as it is. -/
theorem specClampRound_intCast (z : ℤ) (h0 : 0 ≤ z) (h100 : z ≤ 100) :
    specClampRound (z : ℚ) = z := by
  unfold specClampRound
  rw [round_intCast, min_eq_right h100, max_eq_right h0]

/-- The BMI adjustment is one of the integers 10, 5, −5. -/
theorem specBmiAdjustment_cases (bmi : ℚ) :
    ∃ b : ℤ, (b = 10 ∨ b = 5 ∨ b = -5) ∧ specBmiAdjustment bmi = b := by
  unfold specBmiAdjustment
  split_ifs
  · exact ⟨10, by simp, by norm_num⟩
  · exact ⟨5, by simp, by norm_num⟩
  · exact ⟨-5, by simp, by norm_num⟩

/-- The sleep adjustment is one of the integers 10, 5, 0. -/
theorem specSleepAdjustment_cases (sleep : ℚ) :
    ∃ s : ℤ, (s = 10 ∨ s = 5 ∨ s = 0) ∧ specSleepAdjustment sleep = s := by
  unfold specSleepAdjustment
  split_ifs
  · exact ⟨10, by simp, by norm_num⟩
  · exact ⟨5, by simp, by norm_num⟩
  · exact ⟨0, by simp, by norm_num⟩

/-- The age penalty lies between 0 and 5. -/
theorem specAgeAdjustment_range (age : ℚ) :
    0 ≤ specAgeAdjustment age ∧ specAgeAdjustment age ≤ 5 := by
  unfold specAgeAdjustment
  split_ifs with h
  · constructor
    · apply le_min _ (by norm_num)
      apply Int.floor_nonneg.mpr
      apply div_nonneg _ (by norm_num)
      linarith
    · exact min_le_right _ _
  · simp

/-- For valid inputs the preview sum is an integer between 55 and 99. -/
theorem specPreviewSum_int (weight height sleep : ℚ) (exercise stress : ℕ)
    (hv : ValidInput weight height sleep exercise stress) :
    ∃ z : ℤ, 55 ≤ z ∧ z ≤ 99 ∧ specPreviewSum weight height exercise sleep stress = z := by
  obtain ⟨-, -, he, -, hs1, hs10⟩ := hv
  obtain ⟨b, hb, hbq⟩ := specBmiAdjustment_cases (specBMI weight height)
  obtain ⟨s, hs, hsq⟩ := specSleepAdjustment_cases sleep
  have hst : specStressAdjustment stress = ((stress : ℤ) : ℚ) := by
    unfold specStressAdjustment
    rw [min_eq_left (by exact_mod_cast hs10)]
    simp
  rcases le_total (exercise * 2) 10 with h | h
  · have hex : specExerciseAdjustment exercise = ((exercise * 2 : ℤ) : ℚ) := by
      unfold specExerciseAdjustment
      rw [min_eq_left (by exact_mod_cast h)]
      push_cast
      rfl
    refine ⟨70 + b + exercise * 2 + s - stress, ?_, ?_, ?_⟩
    · rcases hb with rfl | rfl | rfl <;> rcases hs with rfl | rfl | rfl <;> omega
    · rcases hb with rfl | rfl | rfl <;> rcases hs with rfl | rfl | rfl <;> omega
    · rw [specPreviewSum, hbq, hsq, hst, hex]
      push_cast
      ring
  · have hex : specExerciseAdjustment exercise = ((10 : ℤ) : ℚ) := by
      unfold specExerciseAdjustment
      rw [min_eq_right (by exact_mod_cast h)]
      simp
    refine ⟨70 + b + 10 + s - stress, ?_, ?_, ?_⟩
    · rcases hb with rfl | rfl | rfl <;> rcases hs with rfl | rfl | rfl <;> omega
    · rcases hb with rfl | rfl | rfl <;> rcases hs with rfl | rfl | rfl <;> omega
    · rw [specPreviewSum, hbq, hsq, hst, hex]
      push_cast
      ring

/-- The full sum is the preview sum less the age penalty. -/
theorem specFinalSum_eq (age weight height exercise sleep stress : ℚ) :
    specFinalSum age weight height exercise sleep stress
      = specPreviewSum weight height exercise sleep stress - specAgeAdjustment age := rfl

/-! ## Claims on the overall score -/

/-- **C1.** For every valid input (weight > 0, height > 0, integer exercise 0..7, sleep ≥ 0,
integer stress 1..10, integer age ≥ 0), the server score `calculateHealthScoreAlgorithm` and
the client score `calculateOptimisticScore` both return an integer `n` with `0 ≤ n ≤ 100`. -/
theorem scores_within_bounds (weight height sleep : ℚ) (exercise stress age : ℕ)
    (hv : ValidInput weight height sleep exercise stress) :
    (∃ n : ℤ, 0 ≤ n ∧ n ≤ 100 ∧
        calculateHealthScoreAlgorithm (mkData age weight height exercise sleep stress) = fin n) ∧
    (∃ n : ℤ, 0 ≤ n ∧ n ≤ 100 ∧
        calculateOptimisticScore (mkData age weight height exercise sleep stress) = fin n) := by
  have hh : height ≠ 0 := ne_of_gt hv.2.1
  constructor
  · exact ⟨specFinalScore age weight height exercise sleep stress,
      (specClampRound_range _).1, (specClampRound_range _).2, server_eq_spec _ _ _ _ _ _ hh⟩
  · exact ⟨specPreviewScore weight height exercise sleep stress,
      (specClampRound_range _).1, (specClampRound_range _).2, preview_eq_spec _ _ _ _ _ _ hh⟩

/-- Witness of C1 at the spec's worked example (age 30, 70 kg, 175 cm, 5 days, 8 h, stress 3). -/
theorem scores_within_bounds_witness :
    ValidInput 70 175 8 5 3 ∧
    (∃ n : ℤ, 0 ≤ n ∧ n ≤ 100 ∧
        calculateHealthScoreAlgorithm (mkData (30 : ℕ) 70 175 (5 : ℕ) 8 (3 : ℕ)) = fin n) ∧
    (∃ n : ℤ, 0 ≤ n ∧ n ≤ 100 ∧
        calculateOptimisticScore (mkData (30 : ℕ) 70 175 (5 : ℕ) 8 (3 : ℕ)) = fin n) :=
  ⟨by norm_num [ValidInput], scores_within_bounds 70 175 8 5 3 30 (by norm_num [ValidInput])⟩

/-- **C3.** For the input age 30, weight 70, height 175, exercise 5, sleep 8, stress 3,
`calculateHealthScoreAlgorithm` returns 97. -/
theorem server_score_worked_example :
    calculateHealthScoreAlgorithm (mkData 30 70 175 5 8 3) = fin 97 := by
  simp [calculateHealthScoreAlgorithm, mkData, div_fin]
  norm_num

/-- **C4.** For every valid input, `finalScore = previewScore − p`, where `p = 0` when
age ≤ 60 and `p = min(floor((age−60)/5), 5)` when age > 60 (this `p` is `specAgeAdjustment`):
the clamp never interferes. In
particular at age 70 with the other fields of the worked example, `finalScore` is
`previewScore − 2`. -/
theorem final_eq_preview_minus_age_penalty (weight height sleep : ℚ) (exercise stress age : ℕ)
    (hv : ValidInput weight height sleep exercise stress) :
    calculateHealthScoreAlgorithm (mkData age weight height exercise sleep stress)
        = sub (calculateOptimisticScore (mkData age weight height exercise sleep stress))
            (fin (specAgeAdjustment age)) ∧
    calculateHealthScoreAlgorithm (mkData 70 70 175 5 8 3)
        = sub (calculateOptimisticScore (mkData 70 70 175 5 8 3)) (fin 2) := by
  constructor
  · have hh : height ≠ 0 := ne_of_gt hv.2.1
    obtain ⟨z, hz55, hz99, hzq⟩ := specPreviewSum_int weight height sleep exercise stress hv
    obtain ⟨hA0, hA5⟩ := specAgeAdjustment_range age
    have hfin : specFinalScore age weight height exercise sleep stress
        = z - specAgeAdjustment age := by
      rw [specFinalScore, specFinalSum_eq, hzq, ← Int.cast_sub]
      exact specClampRound_intCast _ (by omega) (by omega)
    have hpre : specPreviewScore weight height exercise sleep stress = z := by
      rw [specPreviewScore, hzq]
      exact specClampRound_intCast _ (by omega) (by omega)
    rw [server_eq_spec _ _ _ _ _ _ hh, preview_eq_spec _ _ _ _ _ _ hh, sub_fin, hfin, hpre]
    push_cast
    rfl
  · simp [calculateHealthScoreAlgorithm, calculateOptimisticScore, mkData, div_fin]
    norm_num

/-- Witness of C4 at age 83, 82 kg, 168 cm, 2 days, 6.5 h, stress 7. -/
theorem final_eq_preview_minus_age_penalty_witness :
    ValidInput 82 168 (13 / 2) 2 7 ∧
    (calculateHealthScoreAlgorithm (mkData (83 : ℕ) 82 168 (2 : ℕ) (13 / 2) (7 : ℕ))
        = sub (calculateOptimisticScore (mkData (83 : ℕ) 82 168 (2 : ℕ) (13 / 2) (7 : ℕ)))
            (fin (specAgeAdjustment (83 : ℕ))) ∧
    calculateHealthScoreAlgorithm (mkData 70 70 175 5 8 3)
        = sub (calculateOptimisticScore (mkData 70 70 175 5 8 3)) (fin 2)) :=
  ⟨by norm_num [ValidInput],
    final_eq_preview_minus_age_penalty 82 168 (13 / 2) 2 7 83 (by norm_num [ValidInput])⟩

/-- **C6.** The client-side algorithm is commented "same as server", but the two differ: at
age 70, weight 70, height 175, exercise 5, sleep 8, stress 3 the client score
`calculateOptimisticScore` is 97 while the server score `calculateHealthScoreAlgorithm` is
95, so the two functions are not equal on every record. -/
theorem client_differs_from_server_at_age_70 :
    calculateOptimisticScore (mkData 70 70 175 5 8 3) = fin 97 ∧
    calculateHealthScoreAlgorithm (mkData 70 70 175 5 8 3) = fin 95 ∧
    ¬ (∀ data : HealthData,
        calculateOptimisticScore data = calculateHealthScoreAlgorithm data) := by
  have hc : calculateOptimisticScore (mkData 70 70 175 5 8 3) = fin 97 := by
    simp [calculateOptimisticScore, mkData, div_fin]
    norm_num
  have hs : calculateHealthScoreAlgorithm (mkData 70 70 175 5 8 3) = fin 95 := by
    simp [calculateHealthScoreAlgorithm, mkData, div_fin]
    norm_num
  refine ⟨hc, hs, fun h => ?_⟩
  have h70 := h (mkData 70 70 175 5 8 3)
  rw [hc, hs] at h70
  have h2 : (97 : ℚ) = 95 := by
    injection h70
  norm_num at h2

/-- At height 0 the BMI of the code is `Infinity`, `-Infinity` or `NaN`, according to the
sign of the weight. -/
theorem bmi_at_zero_height (weight : ℚ) :
    div (fin weight) (mul (div (fin 0) (fin 100)) (div (fin 0) (fin 100)))
      = if weight = 0 then nan else if 0 < weight then posInf else negInf := by
  simp [div, mul, infOf]

/-- With height 0 the server score takes the "otherwise" BMI bracket (−5). -/
theorem server_at_zero_height (age weight exercise sleep stress : ℚ) :
    calculateHealthScoreAlgorithm (mkData age weight 0 exercise sleep stress)
      = fin (specClampRound
          (70 - 5 + specExerciseAdjustment exercise + specSleepAdjustment sleep
            - specStressAdjustment stress - specAgeAdjustment age)) := by
  simp only [calculateHealthScoreAlgorithm, mkData, bmi_at_zero_height]
  rw [specClampRound_eq]
  have hcases : (if weight = 0 then nan else if 0 < weight then posInf else negInf) = nan ∨
      (if weight = 0 then nan else if 0 < weight then posInf else negInf) = posInf ∨
      (if weight = 0 then nan else if 0 < weight then posInf else negInf) = negInf := by
    split_ifs <;> simp
  rcases hcases with h | h | h <;> rw [h] <;>
    simp only [ge, gt, le, lt, add_fin, sub_fin, mul_fin, le_fin, lt_fin, ge_fin, gt_fin, min_fin,
      max_fin, floor_fin, round_fin, ite_fin, Bool.and_eq_true, Bool.or_eq_true,
      decide_eq_true_eq, div_fin _ _ (by norm_num : (5:ℚ) ≠ 0), Bool.false_and, Bool.and_false,
      Bool.or_false, Bool.false_eq_true, if_false] <;>
    apply fin_clampRound_congr <;>
    unfold specSleepAdjustment specAgeAdjustment specExerciseAdjustment specStressAdjustment <;>
    split_ifs <;> push_cast <;> ring

/-- With height 0 the client score takes the "otherwise" BMI bracket (−5). -/
theorem preview_at_zero_height (age weight exercise sleep stress : ℚ) :
    calculateOptimisticScore (mkData age weight 0 exercise sleep stress)
      = fin (specClampRound
          (70 - 5 + specExerciseAdjustment exercise + specSleepAdjustment sleep
            - specStressAdjustment stress)) := by
  simp only [calculateOptimisticScore, mkData, bmi_at_zero_height]
  rw [specClampRound_eq]
  have hcases : (if weight = 0 then nan else if 0 < weight then posInf else negInf) = nan ∨
      (if weight = 0 then nan else if 0 < weight then posInf else negInf) = posInf ∨
      (if weight = 0 then nan else if 0 < weight then posInf else negInf) = negInf := by
    split_ifs <;> simp
  rcases hcases with h | h | h <;> rw [h] <;>
    simp only [ge, gt, le, lt, add_fin, sub_fin, mul_fin, le_fin, lt_fin, ge_fin, gt_fin, min_fin,
      max_fin, round_fin, ite_fin, Bool.and_eq_true, Bool.or_eq_true,
      decide_eq_true_eq, Bool.false_and, Bool.and_false,
      Bool.or_false, Bool.false_eq_true, if_false] <;>
    apply fin_clampRound_congr <;>
    unfold specSleepAdjustment specExerciseAdjustment specStressAdjustment <;>
    split_ifs <;> ring

/-- **C7, as the spec states it, fails.** The spec's `computeOverallScore` rejects height 0
with `InvalidInput`, but the code validates nothing: at age 30, weight 70, height 0,
exercise 5, sleep 8, stress 3 the BMI is `Infinity` and both `calculateHealthScoreAlgorithm`
and `calculateOptimisticScore` return the number 82. -/
theorem zero_height_returns_a_score :
    specComputeOverallScore 30 70 0 5 8 3 = Except.error EngineError.InvalidInput ∧
    div (fin 70) (mul (div (fin 0) (fin 100)) (div (fin 0) (fin 100))) = posInf ∧
    calculateHealthScoreAlgorithm (mkData 30 70 0 5 8 3) = fin 82 ∧
    calculateOptimisticScore (mkData 30 70 0 5 8 3) = fin 82 := by
  refine ⟨by simp [specComputeOverallScore], by simp [div, mul, infOf], ?_, ?_⟩
  · simp [calculateHealthScoreAlgorithm, mkData, div, mul, infOf, ge, le, lt, gt]
    norm_num
  · simp [calculateOptimisticScore, mkData, div, mul, infOf, ge, le, lt, gt]
    norm_num

/-- **C7, amended.** For every input with height ≤ 0 and finite answers no error is raised:
both scores are integers between 0 and 100; at height 0 the BMI is infinite or NaN, takes
the "otherwise" adjustment −5, and the scores are
`clamp(round(65 + min(2·exercise,10) + S − min(stress,10) − A))`, without `A` in the preview. -/
theorem nonpositive_height_returns_a_score (age weight height exercise sleep stress : ℚ)
    (hh : height ≤ 0) :
    (∃ n : ℤ, 0 ≤ n ∧ n ≤ 100 ∧
        calculateHealthScoreAlgorithm (mkData age weight height exercise sleep stress) = fin n) ∧
    (∃ n : ℤ, 0 ≤ n ∧ n ≤ 100 ∧
        calculateOptimisticScore (mkData age weight height exercise sleep stress) = fin n) ∧
    (height = 0 →
      calculateHealthScoreAlgorithm (mkData age weight height exercise sleep stress)
        = fin (specClampRound
            (70 - 5 + Min.min (exercise * 2) 10 + specSleepAdjustment sleep
              - Min.min stress 10 - specAgeAdjustment age)) ∧
      calculateOptimisticScore (mkData age weight height exercise sleep stress)
        = fin (specClampRound
            (70 - 5 + Min.min (exercise * 2) 10 + specSleepAdjustment sleep
              - Min.min stress 10))) := by
  rcases lt_or_eq_of_le hh with hneg | hzero
  · refine ⟨⟨_, (specClampRound_range _).1, (specClampRound_range _).2,
        server_eq_spec _ _ _ _ _ _ (ne_of_lt hneg)⟩,
      ⟨_, (specClampRound_range _).1, (specClampRound_range _).2,
        preview_eq_spec _ _ _ _ _ _ (ne_of_lt hneg)⟩, fun h0 => ?_⟩
    exact absurd h0 (ne_of_lt hneg)
  · subst hzero
    exact ⟨⟨_, (specClampRound_range _).1, (specClampRound_range _).2,
        server_at_zero_height _ _ _ _ _⟩,
      ⟨_, (specClampRound_range _).1, (specClampRound_range _).2,
        preview_at_zero_height _ _ _ _ _⟩,
      fun _ => ⟨server_at_zero_height _ _ _ _ _, preview_at_zero_height _ _ _ _ _⟩⟩

/-- Witness of the amended C7 at height 0 (age 70, weight 70, exercise 5, sleep 8, stress 3). -/
theorem nonpositive_height_returns_a_score_witness :
    (0 : ℚ) ≤ 0 ∧
    calculateHealthScoreAlgorithm (mkData 70 70 0 5 8 3)
      = fin (specClampRound
          (70 - 5 + Min.min (5 * 2) 10 + specSleepAdjustment 8
            - Min.min 3 10 - specAgeAdjustment 70)) :=
  ⟨le_refl 0, ((nonpositive_height_returns_a_score 70 70 0 5 8 3 (le_refl 0)).2.2 rfl).1⟩

/-! ## Claims on the breakdown metrics -/

/-- The heart sum of the code, for a finite exercise, age and previous exercise: the age
term is applied as soon as the age is non-zero. -/
theorem heartScore_fin (data : HealthData) (historyRecords : List HistoryRecord)
    (exercise age previous : ℚ) (he : data.exercise = fin exercise) (ha : data.age = fin age)
    (hp : previousExercise historyRecords = fin previous) :
    heartScore data historyRecords
      = fin (75 + Min.min (exercise * 3) 15
          - (if age ≠ 0 then ((Min.min ⌊(age - 30) / 10⌋ 10 : ℤ) : ℚ) else 0)
          + (if 2 ≤ historyRecords.length ∧ previous < exercise then 5 else 0)) := by
  simp only [heartScore, he, ha, hp, truthy_fin, add_fin, sub_fin, mul_fin, lt_fin,
    gt_fin, min_fin, floor_fin, ite_fin, decide_eq_true_eq, ge_iff_le,
    div_fin _ _ (by norm_num : (10:ℚ) ≠ 0)]
  congr 1
  by_cases h0 : exercise = 0 <;> by_cases h1 : age = 0 <;>
    by_cases h2 : 2 ≤ historyRecords.length <;>
    simp [h0, h1, h2] <;> split_ifs <;> ring

/-- Where the age is 0 or at least 30, the heart metric of the code is the one of the spec. -/
theorem heart_metric_eq_spec_of_age (healthMetrics : HealthMetrics) (latestHealth : LatestHealth)
    (newest : HistoryRecord) (older : List HistoryRecord) (data : HealthData)
    (exercise age previous : ℚ) (hdata : newest.data = some data)
    (he : data.exercise = fin exercise) (ha : data.age = fin age)
    (hp : previousExercise (newest :: older) = fin previous) (hage : age = 0 ∨ 30 ≤ age) :
    (calculateHealthMetrics healthMetrics (some latestHealth) (newest :: older)).heartHealth.score
      = fin (specHeartHealth exercise age (older.length + 1) previous) := by
  simp only [calculateHealthMetrics, latestRecordData, hdata, Option.getD_some, clampScore]
  rw [heartScore_fin data _ exercise age previous he ha hp, specHeartHealth, specClampRound_eq]
  simp only [round_fin, min_fin, max_fin]
  apply fin_clampRound_congr
  have hpen : (if age ≠ 0 then ((Min.min ⌊(age - 30) / 10⌋ 10 : ℤ) : ℚ) else 0)
      = specHeartAgePenalty age := by
    unfold specHeartAgePenalty
    rcases hage with h0 | h30
    · subst h0
      norm_num
    · rcases eq_or_lt_of_le h30 with h | h
      · subst h
        norm_num
      · rw [if_pos (by linarith), if_pos h]
  rw [hpen, specHeartTrend, List.length_cons]

/-- **C8 (the code departs from it).** The heart metric subtracts
`min(floor((age−30)/10), 10)` whenever the age is non-zero, not only when age > 30: with a
single history record of age 25 and exercise 3 the code gives 75 + 9 + 1 = 85, where the
formula of the claim (no age term at age ≤ 30, no trend term) gives 84. -/
theorem heart_metric_rewards_age_below_30 :
    (calculateHealthMetrics initialHealthMetrics
        (some (latestOf (mkData 25 70 175 3 8 3)))
        [recordOf (mkData 25 70 175 3 8 3)]).heartHealth.score = fin 85 ∧
    specHeartHealth 3 25 1 0 = 84 := by
  constructor
  · simp [calculateHealthMetrics, latestRecordData, recordOf, mkData, heartScore, clampScore,
      div_fin]
    norm_num
  · simp [specHeartHealth, specHeartAgePenalty, specHeartTrend, specClampRound_eq]
    norm_num

/-- **C9, as the spec states it, fails.** With the history `[{exercise:2},{exercise:5}]`
listed newest first and a `latestHealth` whose exercise is 5, `calculateHealthMetrics` reads
the current exercise from the newest history record (2), compares it with the second record
(5) and adds no bonus: the heart metric is 75 + 6 = 81, the same as with the newest record
alone, and not 86. -/
theorem no_trend_bonus_on_spec_history :
    (calculateHealthMetrics initialHealthMetrics (some (latestOf (exerciseOnly 5)))
        [recordOf (exerciseOnly 2), recordOf (exerciseOnly 5)]).heartHealth.score = fin 81 ∧
    (calculateHealthMetrics initialHealthMetrics (some (latestOf (exerciseOnly 5)))
        [recordOf (exerciseOnly 2)]).heartHealth.score = fin 81 := by
  constructor
  · simp [calculateHealthMetrics, latestRecordData, recordOf, exerciseOnly, emptyData, heartScore,
      previousExercise, orElse, clampScore, truthy]
    norm_num
  · simp [calculateHealthMetrics, latestRecordData, recordOf, exerciseOnly, emptyData, heartScore,
      clampScore, truthy]
    norm_num

/-- **C9, amended.** The current exercise is the one of the newest history record, whatever
`latestHealth` holds: for the history `[{exercise:2},{exercise:5}]` (newest first) the heart
metric is 81 with no bonus, since 2 > 5 is false; for the history `[{exercise:5},{exercise:2}]`
the rule exercise > previous holds (5 > 2) and the +5 bonus is applied: the metric is
75 + 15 + 5 = 95, against 90 for the newest record alone. -/
theorem trend_bonus_reads_newest_history_record (healthMetrics : HealthMetrics)
    (latestHealth : LatestHealth) :
    (calculateHealthMetrics healthMetrics (some latestHealth)
        [recordOf (exerciseOnly 2), recordOf (exerciseOnly 5)]).heartHealth.score = fin 81 ∧
    (calculateHealthMetrics healthMetrics (some latestHealth)
        [recordOf (exerciseOnly 5), recordOf (exerciseOnly 2)]).heartHealth.score = fin 95 ∧
    (calculateHealthMetrics healthMetrics (some latestHealth)
        [recordOf (exerciseOnly 5)]).heartHealth.score = fin 90 := by
  refine ⟨?_, ?_, ?_⟩
  · simp [calculateHealthMetrics, latestRecordData, recordOf, exerciseOnly, emptyData, heartScore,
      previousExercise, orElse, clampScore, truthy]
    norm_num
  · simp [calculateHealthMetrics, latestRecordData, recordOf, exerciseOnly, emptyData, heartScore,
      previousExercise, orElse, clampScore, truthy]
    norm_num
  · simp [calculateHealthMetrics, latestRecordData, recordOf, exerciseOnly, emptyData, heartScore,
      clampScore, truthy]
    norm_num

/-- The respiratory sum of the code, for finite exercise, stress and sleep. -/
theorem respiratoryScore_fin (data : HealthData) (exercise stress sleep : ℚ)
    (he : data.exercise = fin exercise) (hst : data.stress = fin stress)
    (hs : data.sleep = fin sleep) :
    respiratoryScore data
      = fin (70 + Min.min (exercise * 2) 10 - Min.min stress 10
          + (if 7 ≤ sleep ∧ sleep ≤ 9 then 10 else 0)) := by
  simp only [respiratoryScore, he, hst, hs, truthy_fin, add_fin, sub_fin, mul_fin, le_fin,
    ge_fin, min_fin, ite_fin, Bool.and_eq_true, decide_eq_true_eq]
  congr 1
  by_cases h0 : exercise = 0 <;> by_cases h1 : stress = 0 <;> split_ifs <;> simp_all

/-- **C10.** For every valid newest-record data (exercise 0..7, stress 1..10, sleep ≥ 0) the
respiratory metric computed by `calculateHealthMetrics` equals
`clamp[0,100](round(70 + min(2·exercise, 10) − min(stress, 10) + (10 if 7 ≤ sleep ≤ 9 else 0)))`. -/
theorem respiratory_metric_formula (healthMetrics : HealthMetrics) (latestHealth : LatestHealth)
    (newest : HistoryRecord) (older : List HistoryRecord) (data : HealthData)
    (exercise stress : ℕ) (sleep : ℚ)
    (hdata : newest.data = some data)
    (he : data.exercise = fin exercise) (hst : data.stress = fin stress)
    (hs : data.sleep = fin sleep)
    (_hexercise : exercise ≤ 7) (_hstress : 1 ≤ stress ∧ stress ≤ 10) (_hsleep : 0 ≤ sleep) :
    (calculateHealthMetrics healthMetrics (some latestHealth) (newest :: older)).respiratory.score
      = fin (specClampRound (70 + Min.min ((exercise : ℚ) * 2) 10 - Min.min (stress : ℚ) 10
          + (if 7 ≤ sleep ∧ sleep ≤ 9 then 10 else 0))) := by
  simp only [calculateHealthMetrics, latestRecordData, hdata, Option.getD_some, clampScore]
  rw [respiratoryScore_fin data exercise stress sleep he hst hs, specClampRound_eq]
  simp only [round_fin, min_fin, max_fin]
  exact fin_clampRound_congr _ _ rfl

/-- Witness of C10: newest record with exercise 5, stress 3, sleep 8 gives 70 + 10 − 3 + 10. -/
theorem respiratory_metric_formula_witness :
    (calculateHealthMetrics initialHealthMetrics (some (latestOf (mkData 30 70 175 5 8 3)))
        (recordOf (mkData 30 70 175 5 8 3) :: [])).respiratory.score
      = fin (specClampRound (70 + Min.min (((5 : ℕ) : ℚ) * 2) 10 - Min.min ((3 : ℕ) : ℚ) 10
          + (if (7 : ℚ) ≤ 8 ∧ (8 : ℚ) ≤ 9 then 10 else 0))) :=
  respiratory_metric_formula initialHealthMetrics (latestOf (mkData 30 70 175 5 8 3))
    (recordOf (mkData 30 70 175 5 8 3)) [] (mkData 30 70 175 5 8 3) 5 3 8 rfl
    (by simp [mkData]) (by simp [mkData]) rfl (by norm_num) (by norm_num) (by norm_num)

/-- The final clamp of the code on a finite sum is the clamp of the spec. -/
theorem clampScore_fin (q : ℚ) : clampScore (fin q) = fin (specClampRound q) := by
  rw [specClampRound_eq]
  simp only [clampScore, round_fin, min_fin, max_fin]
  exact fin_clampRound_congr _ _ rfl

/-- The metabolic sum of the code, for a finite BMI and a finite exercise. -/
theorem metabolicScore_fin (latestHealth : LatestHealth) (data : HealthData) (bmi exercise : ℚ)
    (hb : latestHealth.bmi = fin bmi) (he : data.exercise = fin exercise) :
    metabolicScore latestHealth data
      = fin (70 + specMetabolicBmiTerm bmi + (if 3 ≤ exercise then 5 else 0)) := by
  simp only [metabolicScore, hb, he, truthy_fin, add_fin, sub_fin, le_fin, lt_fin,
    ge_fin, gt_fin, ite_fin, Bool.and_eq_true, Bool.or_eq_true, decide_eq_true_eq]
  congr 1
  unfold specMetabolicBmiTerm
  by_cases h0 : bmi = 0
  · subst h0
    norm_num
    split_ifs <;> ring
  · simp only [ne_eq, h0, not_false_eq_true, if_true]
    split_ifs <;> ring

/-- **C11.** For a positive BMI the metabolic metric computed by `calculateHealthMetrics`
equals `clamp[0,100](round(70 + M + (5 if exercise ≥ 3 else 0)))`, where `M = +20` if
18.5 ≤ BMI ≤ 24.9, `+10` if 17 ≤ BMI < 18.5 or 24.9 < BMI ≤ 29.9, `−10` if BMI > 35 and `0`
otherwise; the BMI is the one of `latestHealth`, the exercise the one of the newest record. -/
theorem metabolic_metric_formula (healthMetrics : HealthMetrics) (latestHealth : LatestHealth)
    (newest : HistoryRecord) (older : List HistoryRecord) (data : HealthData)
    (bmi exercise : ℚ) (hdata : newest.data = some data)
    (hb : latestHealth.bmi = fin bmi) (he : data.exercise = fin exercise) (_hpos : 0 < bmi) :
    (calculateHealthMetrics healthMetrics (some latestHealth) (newest :: older)).metabolic.score
      = fin (specClampRound
          (70 + (if 18.5 ≤ bmi ∧ bmi ≤ 24.9 then 20
                else if (17 ≤ bmi ∧ bmi < 18.5) ∨ (24.9 < bmi ∧ bmi ≤ 29.9) then 10
                else if 35 < bmi then -10 else 0)
            + (if 3 ≤ exercise then 5 else 0))) := by
  simp only [calculateHealthMetrics, latestRecordData, hdata, Option.getD_some]
  rw [metabolicScore_fin latestHealth data bmi exercise hb he, clampScore_fin]
  rfl

/-- Witness of C11: BMI 22.9 and exercise 5 give 70 + 20 + 5 = 95. -/
theorem metabolic_metric_formula_witness :
    (calculateHealthMetrics initialHealthMetrics
        (some { latestOf (mkData 30 70 175 5 8 3) with bmi := fin 22.9 })
        (recordOf (mkData 30 70 175 5 8 3) :: [])).metabolic.score
      = fin (specClampRound
          (70 + (if (18.5 : ℚ) ≤ 22.9 ∧ (22.9 : ℚ) ≤ 24.9 then 20
                else if ((17 : ℚ) ≤ 22.9 ∧ (22.9 : ℚ) < 18.5) ∨
                    ((24.9 : ℚ) < 22.9 ∧ (22.9 : ℚ) ≤ 29.9) then 10
                else if (35 : ℚ) < 22.9 then -10 else 0)
            + (if (3 : ℚ) ≤ 5 then 5 else 0))) :=
  metabolic_metric_formula initialHealthMetrics
    { latestOf (mkData 30 70 175 5 8 3) with bmi := fin 22.9 }
    (recordOf (mkData 30 70 175 5 8 3)) [] (mkData 30 70 175 5 8 3) 22.9 5 rfl rfl
    (by simp [mkData]) (by norm_num)

/-- The skeletal sum of the code, for a finite non-zero BMI and finite exercise and age. -/
theorem skeletalScore_fin (latestHealth : LatestHealth) (data : HealthData)
    (bmi exercise age : ℚ) (hb : latestHealth.bmi = fin bmi) (he : data.exercise = fin exercise)
    (ha : data.age = fin age) (hb0 : bmi ≠ 0) :
    skeletalScore latestHealth data
      = fin (70 + Min.min (exercise * 3) 15 - specSkeletalAgePenalty age
          - specSkeletalBmiPenalty bmi) := by
  simp only [skeletalScore, hb, he, ha, truthy_fin, add_fin, sub_fin, mul_fin, lt_fin,
    gt_fin, min_fin, floor_fin, ite_fin, decide_eq_true_eq,
    div_fin _ _ (by norm_num : (5:ℚ) ≠ 0)]
  congr 1
  unfold specSkeletalAgePenalty specSkeletalBmiPenalty
  by_cases h0 : exercise = 0 <;> by_cases hlow : bmi < 18.5 <;> by_cases hhigh : 30 < bmi <;>
    by_cases hage : 50 < age <;> simp [h0, hlow, hhigh, hage, hb0]

/-- **C12.** For a positive BMI the skeletal metric computed by `calculateHealthMetrics`
equals `clamp[0,100](round(70 + min(3·exercise, 15) − Q − W))`, where
`Q = min(floor((age−50)/5), 10)` if age > 50, else 0, and `W = 5` if BMI < 18.5 or BMI > 30,
else 0. -/
theorem skeletal_metric_formula (healthMetrics : HealthMetrics) (latestHealth : LatestHealth)
    (newest : HistoryRecord) (older : List HistoryRecord) (data : HealthData)
    (bmi exercise age : ℚ) (hdata : newest.data = some data)
    (hb : latestHealth.bmi = fin bmi) (he : data.exercise = fin exercise)
    (ha : data.age = fin age) (hpos : 0 < bmi) :
    (calculateHealthMetrics healthMetrics (some latestHealth) (newest :: older)).skeletal.score
      = fin (specClampRound
          (70 + Min.min (exercise * 3) 15
            - ((if 50 < age then Min.min ⌊(age - 50) / 5⌋ 10 else 0 : ℤ) : ℚ)
            - (if bmi < 18.5 ∨ 30 < bmi then 5 else 0))) := by
  simp only [calculateHealthMetrics, latestRecordData, hdata, Option.getD_some]
  rw [skeletalScore_fin latestHealth data bmi exercise age hb he ha (ne_of_gt hpos),
    clampScore_fin]
  rfl

/-- Witness of C12: BMI 31, exercise 2, age 63 give 70 + 6 − 2 − 5 = 69. -/
theorem skeletal_metric_formula_witness :
    (calculateHealthMetrics initialHealthMetrics
        (some { latestOf (mkData 63 95 175 2 8 3) with bmi := fin 31 })
        (recordOf (mkData 63 95 175 2 8 3) :: [])).skeletal.score
      = fin (specClampRound
          (70 + Min.min ((2 : ℚ) * 3) 15
            - ((if (50 : ℚ) < 63 then Min.min ⌊((63 : ℚ) - 50) / 5⌋ 10 else 0 : ℤ) : ℚ)
            - (if (31 : ℚ) < 18.5 ∨ (30 : ℚ) < 31 then 5 else 0))) :=
  skeletal_metric_formula initialHealthMetrics
    { latestOf (mkData 63 95 175 2 8 3) with bmi := fin 31 }
    (recordOf (mkData 63 95 175 2 8 3)) [] (mkData 63 95 175 2 8 3) 31 2 63 rfl rfl
    (by simp [mkData]) (by simp [mkData]) (by norm_num)

/-- A clamped finite sum is an integer score between 0 and 100. -/
theorem isScore_clampScore_fin (q : ℚ) : IsScore (clampScore (fin q)) :=
  ⟨specClampRound q, (specClampRound_range q).1, (specClampRound_range q).2, clampScore_fin q⟩

/-- The heart sum is finite as soon as exercise and age are finite or absent. -/
theorem heartScore_isFin (data : HealthData) (historyRecords : List HistoryRecord)
    (he : FiniteOrAbsent data.exercise) (ha : FiniteOrAbsent data.age) :
    ∃ q : ℚ, heartScore data historyRecords = fin q := by
  rcases he with he | ⟨e, he⟩ <;> rcases ha with ha | ⟨a, ha⟩ <;>
    simp only [heartScore, he, ha, truthy, truthy_fin, add_fin, sub_fin, mul_fin, min_fin,
      floor_fin, ite_fin, div_fin _ _ (by norm_num : (10:ℚ) ≠ 0), Bool.false_eq_true,
      if_false] <;>
    exact ⟨_, rfl⟩

/-- The respiratory sum is finite as soon as exercise and stress are finite or absent. -/
theorem respiratoryScore_isFin (data : HealthData)
    (he : FiniteOrAbsent data.exercise) (hs : FiniteOrAbsent data.stress) :
    ∃ q : ℚ, respiratoryScore data = fin q := by
  rcases he with he | ⟨e, he⟩ <;> rcases hs with hs | ⟨s, hs⟩ <;>
    simp only [respiratoryScore, he, hs, truthy, truthy_fin, add_fin, sub_fin, mul_fin, min_fin,
      ite_fin, Bool.false_eq_true, if_false] <;>
    exact ⟨_, rfl⟩

/-- The metabolic sum is always finite. -/
theorem metabolicScore_isFin (latestHealth : LatestHealth) (data : HealthData) :
    ∃ q : ℚ, metabolicScore latestHealth data = fin q := by
  simp only [metabolicScore, add_fin, sub_fin, ite_fin]
  exact ⟨_, rfl⟩

/-- The skeletal sum is finite as soon as exercise and age are finite or absent. -/
theorem skeletalScore_isFin (latestHealth : LatestHealth) (data : HealthData)
    (he : FiniteOrAbsent data.exercise) (ha : FiniteOrAbsent data.age) :
    ∃ q : ℚ, skeletalScore latestHealth data = fin q := by
  rcases he with he | ⟨e, he⟩ <;> rcases ha with ha | ⟨a, ha⟩ <;>
    simp only [skeletalScore, he, ha, truthy, truthy_fin, gt, lt, lt_fin, add_fin, sub_fin,
      mul_fin, min_fin, floor_fin, ite_fin, div_fin _ _ (by norm_num : (5:ℚ) ≠ 0),
      Bool.false_eq_true, if_false] <;>
    exact ⟨_, rfl⟩

/-- The answers read from a history with numeric fields are finite or, for an empty history,
absent. -/
theorem latestRecordData_finiteOrAbsent (historyRecords : List HistoryRecord)
    (hnum : ∀ record ∈ historyRecords, NumericRecord record) :
    FiniteOrAbsent (latestRecordData historyRecords).exercise ∧
    FiniteOrAbsent (latestRecordData historyRecords).age ∧
    FiniteOrAbsent (latestRecordData historyRecords).stress := by
  cases historyRecords with
  | nil => exact ⟨Or.inl rfl, Or.inl rfl, Or.inl rfl⟩
  | cons newest older =>
    obtain ⟨d, hd, age, weight, height, exercise, sleep, stress, hmk⟩ :=
      hnum newest (List.mem_cons_self _ _)
    subst hmk
    simp only [latestRecordData, hd, Option.getD_some, mkData]
    exact ⟨Or.inr ⟨_, rfl⟩, Or.inr ⟨_, rfl⟩, Or.inr ⟨_, rfl⟩⟩

/-- **C13.** For every non-null latest record and every history list with numeric fields,
each of the four metrics produced by `calculateHealthMetrics` (heartHealth, respiratory,
metabolic, skeletal) is an integer in [0,100]. -/
theorem metrics_within_bounds (healthMetrics : HealthMetrics) (latestHealth : LatestHealth)
    (historyRecords : List HistoryRecord)
    (hnum : ∀ record ∈ historyRecords, NumericRecord record) :
    IsScore (calculateHealthMetrics healthMetrics (some latestHealth)
      historyRecords).heartHealth.score ∧
    IsScore (calculateHealthMetrics healthMetrics (some latestHealth)
      historyRecords).respiratory.score ∧
    IsScore (calculateHealthMetrics healthMetrics (some latestHealth)
      historyRecords).metabolic.score ∧
    IsScore (calculateHealthMetrics healthMetrics (some latestHealth)
      historyRecords).skeletal.score := by
  obtain ⟨he, ha, hs⟩ := latestRecordData_finiteOrAbsent historyRecords hnum
  obtain ⟨q1, h1⟩ := heartScore_isFin _ historyRecords he ha
  obtain ⟨q2, h2⟩ := respiratoryScore_isFin _ he hs
  obtain ⟨q3, h3⟩ := metabolicScore_isFin latestHealth (latestRecordData historyRecords)
  obtain ⟨q4, h4⟩ := skeletalScore_isFin latestHealth _ he ha
  simp only [calculateHealthMetrics, h1, h2, h3, h4]
  exact ⟨isScore_clampScore_fin q1, isScore_clampScore_fin q2, isScore_clampScore_fin q3,
    isScore_clampScore_fin q4⟩

/-- Witness of C13 on a history of two numeric records. -/
theorem metrics_within_bounds_witness :
    IsScore (calculateHealthMetrics initialHealthMetrics
      (some (latestOf (mkData 63 95 175 2 8 3)))
      [recordOf (mkData 63 95 175 2 8 3), recordOf (mkData 62 90 175 1 6 5)]).heartHealth.score :=
  (metrics_within_bounds initialHealthMetrics (latestOf (mkData 63 95 175 2 8 3))
    [recordOf (mkData 63 95 175 2 8 3), recordOf (mkData 62 90 175 1 6 5)]
    (by
      intro record hmem
      simp only [List.mem_cons, List.mem_singleton, List.not_mem_nil, or_false] at hmem
      rcases hmem with rfl | rfl
      · exact ⟨_, rfl, _, _, _, _, _, _, rfl⟩
      · exact ⟨_, rfl, _, _, _, _, _, _, rfl⟩)).1

/-- Subtracting zero leaves any number as it is. -/
theorem sub_fin_zero (x : JSNum) : sub x (fin 0) = x := by
  cases x <;> simp [sub, neg, add]

/-- **C14.** When the history holds fewer than two records (zero or one),
`calculateHealthMetrics` computes the heart score with no trend term: it is the clamp of
75 plus the exercise term less the age term, with no +5, whatever the newest record's
exercise is (any number, or absent). For finite exercise `e` and age `a` this is
`clamp(round(75 + min(3e, 15) − (age term)))`, and for an empty history it is 75. -/
theorem heart_metric_without_trend (healthMetrics : HealthMetrics) (latestHealth : LatestHealth)
    (historyRecords : List HistoryRecord) (hlen : historyRecords.length < 2) :
    (calculateHealthMetrics healthMetrics (some latestHealth) historyRecords).heartHealth.score
      = clampScore (sub
          (add (fin 75)
            (if truthy (latestRecordData historyRecords).exercise then
              min (mul (latestRecordData historyRecords).exercise (fin 3)) (fin 15)
            else fin 0))
          (if truthy (latestRecordData historyRecords).age then
            min (floor (div (sub (latestRecordData historyRecords).age (fin 30)) (fin 10)))
              (fin 10)
          else fin 0)) ∧
    (∀ e a : ℚ, (latestRecordData historyRecords).exercise = fin e →
      (latestRecordData historyRecords).age = fin a →
      (calculateHealthMetrics healthMetrics (some latestHealth) historyRecords).heartHealth.score
        = fin (specClampRound (75 + Min.min (e * 3) 15
            - (if a ≠ 0 then ((Min.min ⌊(a - 30) / 10⌋ 10 : ℤ) : ℚ) else 0)))) ∧
    (historyRecords = [] →
      (calculateHealthMetrics healthMetrics (some latestHealth) historyRecords).heartHealth.score
        = fin 75) := by
  have hnot : ¬ historyRecords.length ≥ 2 := by omega
  refine ⟨?_, ?_, ?_⟩
  · simp only [calculateHealthMetrics, heartScore, hnot, if_false]
    congr 1
    by_cases h1 : truthy (latestRecordData historyRecords).exercise = true <;>
      by_cases h2 : truthy (latestRecordData historyRecords).age = true <;>
      simp [h1, h2, sub_fin_zero]
  · intro e a he ha
    simp only [calculateHealthMetrics]
    have hp : ∃ p : ℚ, previousExercise historyRecords = fin p := by
      have h1 : historyRecords[1]? = none := List.getElem?_eq_none (by omega)
      exact ⟨0, by simp [previousExercise, h1, orElse, truthy]⟩
    obtain ⟨p, hp⟩ := hp
    rw [heartScore_fin _ historyRecords e a p he ha hp, clampScore_fin]
    have h0 : ¬ (2 ≤ historyRecords.length ∧ p < e) := fun h => hnot h.1
    rw [if_neg h0, add_zero]
  · intro hnil
    subst hnil
    simp [calculateHealthMetrics, latestRecordData, emptyData, heartScore, clampScore, truthy]
    norm_num

/-- Witness of C14 on a single record with exercise 5 and age 45. -/
theorem heart_metric_without_trend_witness :
    (calculateHealthMetrics initialHealthMetrics (some (latestOf (mkData 45 70 175 5 8 3)))
        [recordOf (mkData 45 70 175 5 8 3)]).heartHealth.score
      = fin (specClampRound (75 + Min.min ((5 : ℚ) * 3) 15
          - (if (45 : ℚ) ≠ 0 then ((Min.min ⌊((45 : ℚ) - 30) / 10⌋ 10 : ℤ) : ℚ) else 0))) :=
  (heart_metric_without_trend initialHealthMetrics (latestOf (mkData 45 70 175 5 8 3))
    [recordOf (mkData 45 70 175 5 8 3)] (by simp)).2.1 5 45 (by simp [latestRecordData, recordOf, mkData])
    (by simp [latestRecordData, recordOf, mkData])

/-- **C15, as the spec states it, fails.** With two history records of which the second
carries no answers, the missing previous exercise is read as 0, so a newest exercise of 3
counts as an improvement: the heart metric is 75 + 9 + 5 = 89, against 84 for the newest
record alone. -/
theorem trend_bonus_with_missing_previous_exercise :
    (calculateHealthMetrics initialHealthMetrics (some (latestOf (exerciseOnly 3)))
        [recordOf (exerciseOnly 3), recordWithoutData]).heartHealth.score = fin 89 ∧
    (calculateHealthMetrics initialHealthMetrics (some (latestOf (exerciseOnly 3)))
        [recordOf (exerciseOnly 3)]).heartHealth.score = fin 84 := by
  constructor
  · simp [calculateHealthMetrics, latestRecordData, recordOf, exerciseOnly, emptyData, heartScore,
      previousExercise, recordWithoutData, orElse, clampScore, truthy]
    norm_num
  · simp [calculateHealthMetrics, latestRecordData, recordOf, exerciseOnly, emptyData, heartScore,
      clampScore, truthy]
    norm_num

/-- A second record without an exercise value makes the previous exercise 0. -/
theorem previousExercise_of_missing (newest second : HistoryRecord) (older : List HistoryRecord)
    (hmissing : second.data = none ∨ ∃ d : HealthData, second.data = some d ∧ d.exercise = nan) :
    previousExercise (newest :: second :: older) = fin 0 := by
  rcases hmissing with h | ⟨d, h, hd⟩ <;>
    simp [previousExercise, h, orElse, truthy, *]

/-- The heart sum of the code when the previous exercise is 0, for an exercise and an age
that are finite or absent. -/
theorem heartScore_previous_zero (data : HealthData) (historyRecords : List HistoryRecord)
    (exercise age : Option ℚ) (he : data.exercise = fieldValue exercise)
    (ha : data.age = fieldValue age) (hlen : historyRecords.length ≥ 2)
    (hp : previousExercise historyRecords = fin 0) :
    heartScore data historyRecords
      = fin (75 + heartExerciseTerm exercise - heartAgeTerm age
          + heartTrendTermAgainstZero exercise) := by
  cases exercise with
  | none =>
    cases age with
    | none =>
      simp [heartScore, he, ha, hp, hlen, fieldValue, truthy, gt, lt, heartExerciseTerm,
        heartAgeTerm, heartTrendTermAgainstZero]
    | some a =>
      by_cases h1 : a = 0 <;>
        simp [heartScore, he, ha, hp, hlen, fieldValue, truthy, gt, lt, h1, div_fin,
          heartExerciseTerm, heartAgeTerm, heartTrendTermAgainstZero]
  | some e =>
    cases age with
    | none =>
      by_cases h0 : e = 0 <;> by_cases hpos : 0 < e <;>
        simp [heartScore, he, ha, hp, hlen, fieldValue, truthy, gt, lt, h0, hpos,
          heartExerciseTerm, heartAgeTerm, heartTrendTermAgainstZero]
    | some a =>
      have hge : 2 ≤ historyRecords.length := hlen
      rw [heartScore_fin data historyRecords e a 0 he ha hp]
      simp [hge, heartExerciseTerm, heartAgeTerm, heartTrendTermAgainstZero]

/-- **C15, amended.** When there are at least two history records and the second-newest
carries no exercise value (its data or its exercise field is absent), no error is raised and
the previous exercise defaults to 0: the +5 bonus is applied exactly when the newest record's
exercise is greater than 0, and nothing is added when it is 0 or absent. For every newest
record (exercise and age any value, or absent) the heart metric is the clamp of the sum
without trend plus 5 when `exercise > 0`; for an exercise `e` and an age `a` that are finite
or absent it is `clamp(round(75 + min(3e, 15) − (age term) + (5 if e > 0 else 0)))`, an
absent field contributing nothing (`heartExerciseTerm`, `heartAgeTerm`,
`heartTrendTermAgainstZero`). -/
theorem trend_bonus_defaults_previous_to_zero (healthMetrics : HealthMetrics)
    (latestHealth : LatestHealth) (newest second : HistoryRecord) (older : List HistoryRecord)
    (hmissing : second.data = none ∨ ∃ d : HealthData, second.data = some d ∧ d.exercise = nan) :
    previousExercise (newest :: second :: older) = fin 0 ∧
    (calculateHealthMetrics healthMetrics (some latestHealth)
        (newest :: second :: older)).heartHealth.score
      = clampScore
          (if gt (latestRecordData (newest :: second :: older)).exercise (fin 0) then
            add
              (sub
                (add (fin 75)
                  (if truthy (latestRecordData (newest :: second :: older)).exercise then
                    min (mul (latestRecordData (newest :: second :: older)).exercise (fin 3))
                      (fin 15)
                  else fin 0))
                (if truthy (latestRecordData (newest :: second :: older)).age then
                  min (floor (div (sub (latestRecordData (newest :: second :: older)).age
                    (fin 30)) (fin 10))) (fin 10)
                else fin 0))
              (fin 5)
          else
            sub
              (add (fin 75)
                (if truthy (latestRecordData (newest :: second :: older)).exercise then
                  min (mul (latestRecordData (newest :: second :: older)).exercise (fin 3))
                    (fin 15)
                else fin 0))
              (if truthy (latestRecordData (newest :: second :: older)).age then
                min (floor (div (sub (latestRecordData (newest :: second :: older)).age
                  (fin 30)) (fin 10))) (fin 10)
              else fin 0)) ∧
    (∀ exercise age : Option ℚ,
      (latestRecordData (newest :: second :: older)).exercise = fieldValue exercise →
      (latestRecordData (newest :: second :: older)).age = fieldValue age →
      (calculateHealthMetrics healthMetrics (some latestHealth)
          (newest :: second :: older)).heartHealth.score
        = fin (specClampRound (75 + heartExerciseTerm exercise - heartAgeTerm age
            + heartTrendTermAgainstZero exercise))) := by
  have hprev := previousExercise_of_missing newest second older hmissing
  have hlen : (newest :: second :: older).length ≥ 2 := by simp
  refine ⟨hprev, ?_, ?_⟩
  · simp only [calculateHealthMetrics, heartScore, hprev, hlen, if_true]
    congr 1
    by_cases h1 : truthy (latestRecordData (newest :: second :: older)).exercise = true <;>
      by_cases h2 : truthy (latestRecordData (newest :: second :: older)).age = true <;>
      by_cases h3 : gt (latestRecordData (newest :: second :: older)).exercise (fin 0) = true <;>
      simp [h1, h2, h3, sub_fin_zero]
  · intro exercise age he ha
    simp only [calculateHealthMetrics]
    rw [heartScore_previous_zero _ _ exercise age he ha hlen hprev, clampScore_fin]

/-- Witness of the amended C15 at the input of the counterexample: newest exercise 3 with no
age, second record without data; the heart metric is 75 + 9 + 5 = 89. -/
theorem trend_bonus_defaults_previous_to_zero_witness :
    (calculateHealthMetrics initialHealthMetrics (some (latestOf (exerciseOnly 3)))
        (recordOf (exerciseOnly 3) :: recordWithoutData :: [])).heartHealth.score
      = fin (specClampRound (75 + heartExerciseTerm (some 3) - heartAgeTerm none
          + heartTrendTermAgainstZero (some 3))) :=
  (trend_bonus_defaults_previous_to_zero initialHealthMetrics (latestOf (exerciseOnly 3))
    (recordOf (exerciseOnly 3)) recordWithoutData [] (Or.inl rfl)).2.2 (some 3) none rfl rfl


/-! ## Claims on the server actions -/

/-- **C17.** For each of `getPatient`, `calculateHealthScore`, `getHealthHistory` and
`updatePatientProfile`: when `userId` is absent (undefined, null or empty) the action returns
`{success: false, error: "Not authenticated"}` and leaves the patient and health-record
stores unchanged. -/
theorem unauthenticated_actions_change_nothing (store : Store) (userId : Option String)
    (data : HealthData) (now : ℕ) (limit : LimitArg) (profileData : ProfileData)
    (habsent : userId = none ∨ userId = some "") :
    getPatient store userId = (PatientResponse.failure "Not authenticated", store) ∧
    calculateHealthScore store data userId now
      = (ScoreResponse.failure "Not authenticated", store) ∧
    getHealthHistory store limit userId
      = (HistoryResponse.failure "Not authenticated", store) ∧
    updatePatientProfile store profileData userId
      = (ProfileResponse.failure "Not authenticated", store) := by
  have h : notAuthenticated userId = true := by
    rcases habsent with rfl | rfl <;> simp [notAuthenticated]
  simp [getPatient, calculateHealthScore, getHealthHistory, updatePatientProfile, h]

/-- Witness of C17 with the empty identity on the example database. -/
theorem unauthenticated_actions_change_nothing_witness :
    getPatient exampleStore (some "")
      = (PatientResponse.failure "Not authenticated", exampleStore) :=
  (unauthenticated_actions_change_nothing exampleStore (some "") (mkData 30 70 175 5 8 3) 2000
    LimitArg.omitted { name := none, email := none } (Or.inr rfl)).1

/-- A non-empty identity passes the test `!userId`. -/
theorem notAuthenticated_some (uid : String) (huid : uid ≠ "") :
    notAuthenticated (some uid) = false := by
  simp [notAuthenticated, huid]

/-- **C16.** For every store, every existing patient and every positive limit,
`getHealthHistory(limit, userId)` returns success with exactly the `min(limit, n)` most
recently created records of that patient (`n` the number of that patient's records), ordered
by creation time newest first, and no record of any other patient; with the limit omitted it
returns at most 10. The documents returned (`docs`) and those left out (`rest`) together are
the patient's documents in descending order of creation, and each record sent carries the
identifier, the score, the creation date, the BMI and the answers of its document, in the
same order; with the limit omitted the documents are the first 10 of the same list. -/
theorem history_returns_newest_records (store : Store) (uid : String) (patient : Patient)
    (limit : ℕ) (huid : uid ≠ "") (hpatient : findPatient store.patients uid = some patient)
    (hlimit : 0 < limit) :
    ∃ docs rest : List Health,
      getHealthHistory store (LimitArg.count limit) (some uid)
        = (HistoryResponse.success
            (docs.map (fun d =>
              ({ id := toString d._id, score := d.score, date := toISOString d.createdAt,
                 bmi := d.bmi, data := d.data } : HistoryRecord))), store) ∧
      docs.length = Nat.min limit
        (store.healths.filter (fun h => decide (h.patient = patient._id))).length ∧
      (∀ d ∈ docs, d ∈ store.healths ∧ d.patient = patient._id) ∧
      List.Perm (docs ++ rest)
        (store.healths.filter (fun h => decide (h.patient = patient._id))) ∧
      List.Sorted (fun a b : Health => b.createdAt ≤ a.createdAt) (docs ++ rest) ∧
      getHealthHistory store LimitArg.omitted (some uid)
        = (HistoryResponse.success
            (((docs ++ rest).take 10).map (fun d =>
              ({ id := toString d._id, score := d.score, date := toISOString d.createdAt,
                 bmi := d.bmi, data := d.data } : HistoryRecord))), store) ∧
      ((docs ++ rest).take 10).length ≤ 10 := by
  haveI : IsTotal Health (fun a b : Health => b.createdAt ≤ a.createdAt) :=
    ⟨fun a b => le_total b.createdAt a.createdAt⟩
  haveI : IsTrans Health (fun a b : Health => b.createdAt ≤ a.createdAt) :=
    ⟨fun a b c hab hbc => le_trans hbc hab⟩
  have hperm := List.perm_insertionSort (fun a b : Health => b.createdAt ≤ a.createdAt)
    (store.healths.filter (fun h => decide (h.patient = patient._id)))
  have hsorted := List.sorted_insertionSort (fun a b : Health => b.createdAt ≤ a.createdAt)
    (store.healths.filter (fun h => decide (h.patient = patient._id)))
  have hformat : formatRecord = fun d : Health =>
      ({ id := toString d._id, score := d.score, date := toISOString d.createdAt,
         bmi := d.bmi, data := d.data } : HistoryRecord) := rfl
  refine ⟨(findHealthSorted store.healths patient._id).take limit,
    (findHealthSorted store.healths patient._id).drop limit, ?_, ?_, ?_, ?_, ?_, ?_, ?_⟩
  · rw [← hformat]
    simp [getHealthHistory, notAuthenticated_some uid huid, hpatient, limitDocs,
      Nat.pos_iff_ne_zero.mp hlimit]
  · rw [List.length_take, findHealthSorted, List.length_insertionSort]
  · intro d hd
    have hmem : d ∈ store.healths.filter (fun h => decide (h.patient = patient._id)) :=
      hperm.subset (List.mem_of_mem_take hd)
    rw [List.mem_filter] at hmem
    exact ⟨hmem.1, by simpa using hmem.2⟩
  · rw [List.take_append_drop]
    exact hperm
  · rw [List.take_append_drop]
    exact hsorted
  · rw [← hformat, List.take_append_drop]
    simp [getHealthHistory, notAuthenticated_some uid huid, hpatient, limitDocs]
  · rw [List.length_take]
    exact min_le_left _ _

/-- The history of `user_1` in the example database with limit 1: the record of document 2,
the newer of the patient's two, with its score, date and answers; the document of the other
patient is not returned. -/
theorem history_of_example_user :
    getHealthHistory exampleStore (LimitArg.count 1) (some "user_1")
      = (HistoryResponse.success
          [{ id := "2", score := fin 95, date := "2000", bmi := nan,
             data := some (mkData 70 70 175 5 8 3) }], exampleStore) ∧
    getHealthHistory exampleStore LimitArg.omitted (some "user_1")
      = (HistoryResponse.success
          [{ id := "2", score := fin 95, date := "2000", bmi := nan,
             data := some (mkData 70 70 175 5 8 3) },
           { id := "1", score := fin 97, date := "1000", bmi := nan,
             data := some (mkData 30 70 175 5 8 3) }], exampleStore) := by
  constructor
  · simp [getHealthHistory, notAuthenticated, findPatient, exampleStore, limitDocs,
      findHealthSorted, List.insertionSort, List.orderedInsert, formatRecord, toISOString]
    decide
  · simp [getHealthHistory, notAuthenticated, findPatient, exampleStore, limitDocs,
      findHealthSorted, List.insertionSort, List.orderedInsert, formatRecord, toISOString]
    decide

/-- Witness of C16 on the example database: limit 1 for the patient of `user_1` returns the
record of document 2 alone. -/
theorem history_returns_newest_records_witness :
    getHealthHistory exampleStore (LimitArg.count 1) (some "user_1")
      = (HistoryResponse.success
          [{ id := "2", score := fin 95, date := "2000", bmi := nan,
             data := some (mkData 70 70 175 5 8 3) }], exampleStore) ∧
    ∃ docs rest : List Health,
      getHealthHistory exampleStore (LimitArg.count 1) (some "user_1")
        = (HistoryResponse.success
            (docs.map (fun d =>
              ({ id := toString d._id, score := d.score, date := toISOString d.createdAt,
                 bmi := d.bmi, data := d.data } : HistoryRecord))), exampleStore) ∧
      docs.length = Nat.min 1
        (exampleStore.healths.filter (fun h => decide (h.patient = 1))).length ∧
      (∀ d ∈ docs, d ∈ exampleStore.healths ∧ d.patient = 1) ∧
      List.Perm (docs ++ rest)
        (exampleStore.healths.filter (fun h => decide (h.patient = 1))) ∧
      List.Sorted (fun a b : Health => b.createdAt ≤ a.createdAt) (docs ++ rest) ∧
      getHealthHistory exampleStore LimitArg.omitted (some "user_1")
        = (HistoryResponse.success
            (((docs ++ rest).take 10).map (fun d =>
              ({ id := toString d._id, score := d.score, date := toISOString d.createdAt,
                 bmi := d.bmi, data := d.data } : HistoryRecord))), exampleStore) ∧
      ((docs ++ rest).take 10).length ≤ 10 :=
  ⟨history_of_example_user.1,
    history_returns_newest_records exampleStore "user_1"
      { _id := 1, clerkId := "user_1", name := "User", email := "user@example.com",
        latestHealthScore := some 2 } 1 (by decide) (by simp [findPatient, exampleStore])
      (by decide)⟩


/-- Every identifier of a collection is below the one given to a new document. -/
theorem lt_nextId (ids : List ℕ) : ∀ x ∈ ids, x < nextId ids := by
  induction ids with
  | nil => intro x hx; cases hx
  | cons a t ih =>
    intro x hx
    have hstep : nextId (a :: t) = Nat.max a (t.foldr Nat.max 0) + 1 := rfl
    rw [hstep]
    rcases List.mem_cons.mp hx with rfl | hmem
    · exact Nat.lt_succ_of_le (Nat.le_max_left _ _)
    · have := ih x hmem
      unfold nextId at this
      exact Nat.lt_succ_of_le (le_trans (Nat.le_of_lt_succ this) (Nat.le_max_right _ _))

/-- A record appended with a new identifier is the one `findById` returns for it. -/
theorem findHealthById_append_new (healths : List Health) (health : Health)
    (hnew : health._id = nextId (healths.map (fun h => h._id))) :
    findHealthById (healths ++ [health]) health._id = some health := by
  have hnone : healths.find? (fun h => decide (h._id = health._id)) = none := by
    rw [List.find?_eq_none]
    intro h hmem
    have hlt := lt_nextId (healths.map (fun h => h._id)) h._id (List.mem_map_of_mem _ hmem)
    rw [← hnew] at hlt
    simpa using ne_of_lt hlt
  simp [findHealthById, List.find?_append, hnone]

/-- After `save`, the patient found for a Clerk identity is the saved document, when it
replaces the one found before. -/
theorem findPatient_savePatient (patients : List Patient) (uid : String) (found saved : Patient)
    (hfound : findPatient patients uid = some found) (hclerk : saved.clerkId = uid)
    (hid : saved._id = found._id) :
    findPatient (savePatient patients saved) uid = some saved := by
  have hmem : found ∈ patients := List.mem_of_find?_eq_some hfound
  have hany : patients.any (fun q => decide (q._id = saved._id)) = true := by
    rw [List.any_eq_true]
    exact ⟨found, hmem, by simp [hid]⟩
  rw [savePatient, if_pos hany]
  clear hany hmem
  induction patients with
  | nil => simp [findPatient] at hfound
  | cons q t ih =>
    by_cases hq : q.clerkId = uid
    · have hqf : q = found := by
        simpa [findPatient, List.find?_cons, hq] using hfound
      subst hqf
      simp [findPatient, List.find?_cons, hid, hclerk]
    · have ht : findPatient t uid = some found := by
        simpa [findPatient, List.find?_cons, hq] using hfound
      by_cases hsame : q._id = saved._id
      · simp [findPatient, List.find?_cons, hsame, hclerk]
      · have := ih ht
        simpa [findPatient, List.find?_cons, hsame, hq] using this

/-- A patient created for an unknown Clerk identity is the one found for it afterwards. -/
theorem findPatient_save_newPatient (patients : List Patient) (uid : String)
    (hnone : findPatient patients uid = none) :
    findPatient (savePatient patients (newPatient patients uid)) uid
      = some (newPatient patients uid) := by
  have hany : patients.any (fun q => decide (q._id = (newPatient patients uid)._id)) = false := by
    rw [List.any_eq_false]
    intro q hq
    have hlt := lt_nextId (patients.map (fun p => p._id)) q._id (List.mem_map_of_mem _ hq)
    simpa [newPatient] using ne_of_lt hlt
  rw [savePatient, hany]
  simp only [Bool.false_eq_true, if_false]
  unfold findPatient at hnone ⊢
  rw [List.find?_append, hnone]
  simp [newPatient]

/-- The state and response of `calculateHealthScore` once the patient of the identity is
known, whether found or just created. -/
theorem calculateHealthScore_of_patient (store : Store) (data : HealthData) (uid : String)
    (now : ℕ) (huid : uid ≠ "") :
    ∃ (patients : List Patient) (patient : Patient),
      findPatient patients uid = some patient ∧ patient.clerkId = uid ∧
      calculateHealthScore store data (some uid) now
        = (ScoreResponse.success (calculateHealthScoreAlgorithm data)
            { id := toString (nextId (store.healths.map (fun h => h._id))),
              score := calculateHealthScoreAlgorithm data,
              date := toISOString now, bmi := nan },
          { patients := savePatient patients
              { patient with
                latestHealthScore := some (nextId (store.healths.map (fun h => h._id))) },
            healths := store.healths ++
              [{ _id := nextId (store.healths.map (fun h => h._id)), patient := patient._id,
                 score := calculateHealthScoreAlgorithm data, data := some data, bmi := nan,
                 createdAt := now }] }) := by
  cases hfind : findPatient store.patients uid with
  | some p =>
    refine ⟨store.patients, p, hfind, ?_, ?_⟩
    · have := List.find?_some hfind
      simpa using this
    · simp [calculateHealthScore, notAuthenticated_some uid huid, hfind]
  | none =>
    refine ⟨savePatient store.patients (newPatient store.patients uid),
      newPatient store.patients uid, findPatient_save_newPatient _ _ hfind, rfl, ?_⟩
    simp [calculateHealthScore, notAuthenticated_some uid huid, hfind]

/-- **C18.** For every non-empty `userId` and input data, `calculateHealthScore(data, userId)`
succeeds and adds exactly one health record (owned by that user's patient, holding the
computed score and the data snapshot), leaves every pre-existing health record unchanged, and
sets the patient's `latestHealthScore` to the new record, so that an immediately following
`getPatient(userId)` returns `latestHealth.score` equal to the score returned. -/
theorem calculateHealthScore_adds_one_record (store : Store) (data : HealthData) (uid : String)
    (now : ℕ) (huid : uid ≠ "") :
    ∃ (health : Health) (patient : Patient) (info : HealthInfo),
      (calculateHealthScore store data (some uid) now).1
        = ScoreResponse.success (calculateHealthScoreAlgorithm data) info ∧
      (calculateHealthScore store data (some uid) now).2.healths = store.healths ++ [health] ∧
      health.score = calculateHealthScoreAlgorithm data ∧ health.data = some data ∧
      health.patient = patient._id ∧
      findPatient (calculateHealthScore store data (some uid) now).2.patients uid
        = some patient ∧
      patient.latestHealthScore = some health._id ∧
      findHealthById (calculateHealthScore store data (some uid) now).2.healths health._id
        = some health ∧
      ∃ (patientInfo : PatientInfo) (latestHealth : LatestHealth),
        (getPatient (calculateHealthScore store data (some uid) now).2 (some uid)).1
          = PatientResponse.success patientInfo (some latestHealth) ∧
        latestHealth.score = calculateHealthScoreAlgorithm data := by
  obtain ⟨patients, p, hfind, hclerk, hrun⟩ :=
    calculateHealthScore_of_patient store data uid now huid
  have hsaved := findPatient_savePatient patients uid p
    { p with latestHealthScore := some (nextId (store.healths.map (fun h => h._id))) }
    hfind hclerk rfl
  have hnewest := findHealthById_append_new store.healths
    { _id := nextId (store.healths.map (fun h => h._id)), patient := p._id,
      score := calculateHealthScoreAlgorithm data, data := some data, bmi := nan,
      createdAt := now } rfl
  rw [hrun]
  refine ⟨
    { _id := nextId (store.healths.map (fun h => h._id)), patient := p._id,
      score := calculateHealthScoreAlgorithm data, data := some data, bmi := nan,
      createdAt := now },
    { p with latestHealthScore := some (nextId (store.healths.map (fun h => h._id))) },
    _, rfl, rfl, rfl, rfl, rfl, hsaved, rfl, hnewest, ?_⟩
  refine ⟨{ id := toString p._id, name := p.name, email := p.email }, formatLatestHealth
    { _id := nextId (store.healths.map (fun h => h._id)), patient := p._id,
      score := calculateHealthScoreAlgorithm data, data := some data, bmi := nan,
      createdAt := now }, ?_, rfl⟩
  simp only [getPatient, notAuthenticated_some uid huid, Bool.false_eq_true, if_false,
    Option.getD_some, hsaved]
  simp only [findHealthById] at hnewest
  simp [findHealthById, hnewest]

/-- Witness of C18 on the example database, for a user who has no patient yet. -/
theorem calculateHealthScore_adds_one_record_witness :
    ∃ (health : Health) (patient : Patient) (info : HealthInfo),
      (calculateHealthScore exampleStore (mkData 30 70 175 5 8 3) (some "user_2") 3000).1
        = ScoreResponse.success (calculateHealthScoreAlgorithm (mkData 30 70 175 5 8 3)) info ∧
      (calculateHealthScore exampleStore (mkData 30 70 175 5 8 3) (some "user_2") 3000).2.healths
        = exampleStore.healths ++ [health] ∧
      health.score = calculateHealthScoreAlgorithm (mkData 30 70 175 5 8 3) ∧
      health.data = some (mkData 30 70 175 5 8 3) ∧
      health.patient = patient._id ∧
      findPatient
          (calculateHealthScore exampleStore (mkData 30 70 175 5 8 3)
            (some "user_2") 3000).2.patients "user_2"
        = some patient ∧
      patient.latestHealthScore = some health._id ∧
      findHealthById
          (calculateHealthScore exampleStore (mkData 30 70 175 5 8 3)
            (some "user_2") 3000).2.healths health._id
        = some health ∧
      ∃ (patientInfo : PatientInfo) (latestHealth : LatestHealth),
        (getPatient
            (calculateHealthScore exampleStore (mkData 30 70 175 5 8 3)
              (some "user_2") 3000).2 (some "user_2")).1
          = PatientResponse.success patientInfo (some latestHealth) ∧
        latestHealth.score = calculateHealthScoreAlgorithm (mkData 30 70 175 5 8 3) :=
  calculateHealthScore_adds_one_record exampleStore (mkData 30 70 175 5 8 3) "user_2" 3000
    (by decide)


/-! ## Claims on the BMI -/

/-- **C19.** For weight 70 kg and height 175 cm the BMI `weight/(height/100)²` (160/7, about
22.857) rounds to 22.9 at one decimal and is classified Normal: it lies in [18.5, 24.9], the
bracket for which the scoring code awards the +10 BMI adjustment: the BMI computed by
`calculateHealthScoreAlgorithm` is that value, its first test succeeds, and for all finite
other answers the score is `clamp(round(70 + 10 + …))`. -/
theorem bmi_70_175_is_normal :
    specBMI 70 175 = 160 / 7 ∧
    specComputeBMI 70 175 = Except.ok (22.9, some BmiCategory.Normal) ∧
    (18.5 ≤ specBMI 70 175 ∧ specBMI 70 175 ≤ 24.9) ∧
    div (fin 70) (mul (div (fin 175) (fin 100)) (div (fin 175) (fin 100)))
      = fin (specBMI 70 175) ∧
    (ge (fin (specBMI 70 175)) (fin 18.5) && le (fin (specBMI 70 175)) (fin 24.9)) = true ∧
    ∀ age exercise sleep stress : ℚ,
      calculateHealthScoreAlgorithm (mkData age 70 175 exercise sleep stress)
        = fin (specClampRound (70 + 10 + Min.min (exercise * 2) 10 + specSleepAdjustment sleep
            - Min.min stress 10 - specAgeAdjustment age)) := by
  have hbmi : specBMI 70 175 = 160 / 7 := by
    norm_num [specBMI]
  have hfloor : ⌊(160 / 7 : ℚ) * 10 + 1 / 2⌋ = 229 := by
    rw [Int.floor_eq_iff]
    norm_num
  have hround : specRoundOneDecimal (160 / 7) = 22.9 := by
    unfold specRoundOneDecimal
    rw [round_eq, hfloor]
    norm_num
  have hadj : specBmiAdjustment (specBMI 70 175) = 10 := by
    rw [hbmi]
    norm_num [specBmiAdjustment]
  refine ⟨hbmi, ?_, ?_, ?_, ?_, ?_⟩
  · simp only [specComputeBMI, specBmiCategory, hbmi, hround]
    norm_num
  · rw [hbmi]
    norm_num
  · rw [hbmi]
    simp [div_fin]
    norm_num
  · rw [hbmi]
    simp
    norm_num
  · intro age exercise sleep stress
    rw [server_eq_spec _ _ _ _ _ _ (by norm_num), specFinalScore, specFinalSum, hadj]
    rfl

/-! ## Claims on monotonicity -/

/-- Rounding and clamping preserve the order. -/
theorem specClampRound_mono (x y : ℚ) (hxy : x ≤ y) : specClampRound x ≤ specClampRound y := by
  rw [specClampRound_eq, specClampRound_eq]
  exact max_le_max (le_refl 0) (min_le_min (le_refl 100) (Int.floor_mono (by linarith)))

/-- For finite answers the server score is the clamp of a sum in which exercise and stress
enter only through their own terms; `b` is the BMI term (−5 when the height is 0). -/
theorem server_score_shape (age weight height sleep : ℚ) :
    ∃ b : ℚ, ∀ exercise stress : ℚ,
      calculateHealthScoreAlgorithm (mkData age weight height exercise sleep stress)
        = fin (specClampRound (70 + b + specExerciseAdjustment exercise
            + specSleepAdjustment sleep - specStressAdjustment stress
            - specAgeAdjustment age)) := by
  by_cases hh : height = 0
  · subst hh
    refine ⟨-5, fun exercise stress => ?_⟩
    rw [server_at_zero_height, sub_eq_add_neg (70 : ℚ) 5]
  · exact ⟨specBmiAdjustment (specBMI weight height), fun exercise stress =>
      server_eq_spec age weight height exercise sleep stress hh⟩

/-- **C21.** More exercise is better: for any two inputs with finite answers that differ only
in exercise, with `e1 ≤ e2`, `calculateHealthScoreAlgorithm` gives `score(e1) ≤ score(e2)`;
and the score stops increasing once exercise reaches 5 days (`5 ≤ e1 ≤ e2` gives equal
scores). -/
theorem score_monotone_in_exercise (age weight height sleep stress e1 e2 : ℚ) (h12 : e1 ≤ e2) :
    (∃ n1 n2 : ℤ,
      calculateHealthScoreAlgorithm (mkData age weight height e1 sleep stress) = fin n1 ∧
      calculateHealthScoreAlgorithm (mkData age weight height e2 sleep stress) = fin n2 ∧
      n1 ≤ n2) ∧
    le (calculateHealthScoreAlgorithm (mkData age weight height e1 sleep stress))
      (calculateHealthScoreAlgorithm (mkData age weight height e2 sleep stress)) = true ∧
    (5 ≤ e1 →
      calculateHealthScoreAlgorithm (mkData age weight height e1 sleep stress)
        = calculateHealthScoreAlgorithm (mkData age weight height e2 sleep stress)) := by
  obtain ⟨b, hb⟩ := server_score_shape age weight height sleep
  have hmono : specExerciseAdjustment e1 ≤ specExerciseAdjustment e2 := by
    unfold specExerciseAdjustment
    exact min_le_min (by linarith) (le_refl 10)
  have hle := specClampRound_mono
    (70 + b + specExerciseAdjustment e1 + specSleepAdjustment sleep
      - specStressAdjustment stress - specAgeAdjustment age)
    (70 + b + specExerciseAdjustment e2 + specSleepAdjustment sleep
      - specStressAdjustment stress - specAgeAdjustment age) (by linarith)
  refine ⟨⟨_, _, hb e1 stress, hb e2 stress, hle⟩, ?_, ?_⟩
  · rw [hb e1 stress, hb e2 stress, le_fin]
    simpa using hle
  · intro h5
    have h1 : specExerciseAdjustment e1 = 10 := by
      unfold specExerciseAdjustment
      exact min_eq_right (by linarith)
    have h2 : specExerciseAdjustment e2 = 10 := by
      unfold specExerciseAdjustment
      exact min_eq_right (by linarith)
    rw [hb e1 stress, hb e2 stress, h1, h2]

/-- Witness of C21: exercise 2 against exercise 6 on the worked example. -/
theorem score_monotone_in_exercise_witness :
    le (calculateHealthScoreAlgorithm (mkData 30 70 175 2 8 3))
      (calculateHealthScoreAlgorithm (mkData 30 70 175 6 8 3)) = true :=
  (score_monotone_in_exercise 30 70 175 8 3 2 6 (by norm_num)).2.1

/-- **C22.** Lower stress is better: for any two inputs with finite answers that differ only
in stress, with `s1 ≤ s2`, `calculateHealthScoreAlgorithm` gives `score(s1) ≥ score(s2)`. -/
theorem score_antitone_in_stress (age weight height exercise sleep s1 s2 : ℚ) (h12 : s1 ≤ s2) :
    (∃ n1 n2 : ℤ,
      calculateHealthScoreAlgorithm (mkData age weight height exercise sleep s1) = fin n1 ∧
      calculateHealthScoreAlgorithm (mkData age weight height exercise sleep s2) = fin n2 ∧
      n2 ≤ n1) ∧
    ge (calculateHealthScoreAlgorithm (mkData age weight height exercise sleep s1))
      (calculateHealthScoreAlgorithm (mkData age weight height exercise sleep s2)) = true := by
  obtain ⟨b, hb⟩ := server_score_shape age weight height sleep
  have hmono : specStressAdjustment s1 ≤ specStressAdjustment s2 := by
    unfold specStressAdjustment
    exact min_le_min h12 (le_refl 10)
  have hle := specClampRound_mono
    (70 + b + specExerciseAdjustment exercise + specSleepAdjustment sleep
      - specStressAdjustment s2 - specAgeAdjustment age)
    (70 + b + specExerciseAdjustment exercise + specSleepAdjustment sleep
      - specStressAdjustment s1 - specAgeAdjustment age) (by linarith)
  refine ⟨⟨_, _, hb exercise s1, hb exercise s2, hle⟩, ?_⟩
  rw [hb exercise s1, hb exercise s2, ge_fin]
  simpa using hle

/-- Witness of C22: stress 3 against stress 8 on the worked example. -/
theorem score_antitone_in_stress_witness :
    ge (calculateHealthScoreAlgorithm (mkData 30 70 175 5 8 3))
      (calculateHealthScoreAlgorithm (mkData 30 70 175 5 8 8)) = true :=
  (score_antitone_in_stress 30 70 175 5 8 3 8 (by norm_num)).2


/-! ## Claims on the dashboards -/

/-- `submitHealthData` never changes the history shown: its call `getHealthHistory(userId)`
leaves the `userId` parameter undefined and is answered "Not authenticated". -/
theorem submitHealthData_keeps_history (st : Dashboard) (store : Store)
    (userId : Option String) (now : ℕ) :
    (submitHealthData st store userId now).1.healthHistory = st.healthHistory := by
  cases hres : calculateHealthScore store st.answers userId now with
  | mk result store1 =>
    cases result with
    | failure e => simp [submitHealthData, hres]
    | success score info =>
      have hhist : getHealthHistory store1 (limitOfUserId userId) none
          = (HistoryResponse.failure "Not authenticated", store1) := by
        simp [getHealthHistory, notAuthenticated]
      simp [submitHealthData, hres, hhist]

/-- **C23 (the code departs from it).** After `calculateHealthScore` succeeds for the user
`user_1`, `submitHealthData` calls `getHealthHistory(userId)`, which binds the identity to
`limit` and leaves `userId` undefined: the call answers "Not authenticated" and the history
of the dashboard stays empty, although the database now holds three records of that user,
which `getHealthHistory(10, userId)` returns. -/
theorem submit_leaves_history_stale :
    (calculateHealthScore exampleStore (mkData 30 70 175 5 8 3) (some "user_1") 3000).1
      = ScoreResponse.success (fin 97)
          { id := "4", score := fin 97, date := "3000", bmi := nan } ∧
    getHealthHistory
        (submitHealthData { initialDashboard with answers := mkData 30 70 175 5 8 3 }
          exampleStore (some "user_1") 3000).2 (limitOfUserId (some "user_1")) none
      = (HistoryResponse.failure "Not authenticated",
          (submitHealthData { initialDashboard with answers := mkData 30 70 175 5 8 3 }
            exampleStore (some "user_1") 3000).2) ∧
    (submitHealthData { initialDashboard with answers := mkData 30 70 175 5 8 3 }
      exampleStore (some "user_1") 3000).1.healthHistory = [] ∧
    (submitHealthData { initialDashboard with answers := mkData 30 70 175 5 8 3 }
      exampleStore (some "user_1") 3000).1.healthScore = some (fin 97) ∧
    ∃ records : List HistoryRecord,
      (getHealthHistory
        (submitHealthData { initialDashboard with answers := mkData 30 70 175 5 8 3 }
          exampleStore (some "user_1") 3000).2 (LimitArg.count 10) (some "user_1")).1
        = HistoryResponse.success records ∧
      records.map (fun r => r.id) = ["4", "2", "1"] := by
  have hscore : calculateHealthScoreAlgorithm (mkData 30 70 175 5 8 3) = fin 97 := by
    simp [calculateHealthScoreAlgorithm, mkData, div_fin]
    norm_num
  have hrun : calculateHealthScore exampleStore (mkData 30 70 175 5 8 3) (some "user_1") 3000
      = (ScoreResponse.success (fin 97)
          { id := "4", score := fin 97, date := "3000", bmi := nan },
        { patients :=
            [{ _id := 1, clerkId := "user_1", name := "User", email := "user@example.com",
               latestHealthScore := some 4 }],
          healths := exampleStore.healths ++
            [{ _id := 4, patient := 1, score := fin 97, data := some (mkData 30 70 175 5 8 3),
               bmi := nan, createdAt := 3000 }] }) := by
    simp [calculateHealthScore, notAuthenticated, findPatient, exampleStore, hscore, nextId,
      savePatient, toISOString]
    decide
  have hsub : submitHealthData { initialDashboard with answers := mkData 30 70 175 5 8 3 }
      exampleStore (some "user_1") 3000
      = ({ initialDashboard with
            answers := mkData 30 70 175 5 8 3, healthScore := some (fin 97) },
        { patients :=
            [{ _id := 1, clerkId := "user_1", name := "User", email := "user@example.com",
               latestHealthScore := some 4 }],
          healths := exampleStore.healths ++
            [{ _id := 4, patient := 1, score := fin 97, data := some (mkData 30 70 175 5 8 3),
               bmi := nan, createdAt := 3000 }] }) := by
    simp [submitHealthData, hrun, getHealthHistory, notAuthenticated, initialDashboard]
  rw [hsub, hrun]
  refine ⟨rfl, ?_, rfl, rfl, ?_⟩
  · simp [getHealthHistory, notAuthenticated]
  · simp [getHealthHistory, notAuthenticated, findPatient, exampleStore, limitDocs,
      findHealthSorted, List.insertionSort, List.orderedInsert, formatRecord]
    decide

/-- Saving a patient just created for the collection appends it. -/
theorem savePatient_newPatient (patients : List Patient) (uid : String) :
    savePatient patients (newPatient patients uid) = patients ++ [newPatient patients uid] := by
  have hany : patients.any (fun q => decide (q._id = (newPatient patients uid)._id)) = false := by
    rw [List.any_eq_false]
    intro q hq
    have hlt := lt_nextId (patients.map (fun p => p._id)) q._id (List.mem_map_of_mem _ hq)
    simpa [newPatient] using ne_of_lt hlt
  rw [savePatient, hany]
  simp

/-- **C24.** If no patient exists for a non-empty `userId`, `getPatient(userId)` creates
exactly one patient with that `clerkId` (name "User", email "user@example.com") and returns
success with `latestHealth = null`; a second `getPatient(userId)` creates no further patient
and returns the same patient id (the same response, on an unchanged database), so that after
the two sequential calls exactly one patient has this `clerkId`. -/
theorem getPatient_creates_one_patient (store : Store) (uid : String) (huid : uid ≠ "")
    (hnone : findPatient store.patients uid = none) :
    (getPatient store (some uid)).1
      = PatientResponse.success
          { id := toString (nextId (store.patients.map (fun p => p._id))), name := "User",
            email := "user@example.com" } none ∧
    (getPatient store (some uid)).2.patients
      = store.patients ++
          [{ _id := nextId (store.patients.map (fun p => p._id)), clerkId := uid,
             name := "User", email := "user@example.com", latestHealthScore := none }] ∧
    (getPatient store (some uid)).2.healths = store.healths ∧
    getPatient (getPatient store (some uid)).2 (some uid)
      = ((getPatient store (some uid)).1, (getPatient store (some uid)).2) ∧
    ((getPatient (getPatient store (some uid)).2 (some uid)).2.patients.filter
      (fun p => decide (p.clerkId = uid))).length = 1 := by
  have hfirst : getPatient store (some uid)
      = (PatientResponse.success
          { id := toString (nextId (store.patients.map (fun p => p._id))), name := "User",
            email := "user@example.com" } none,
        { store with patients := store.patients ++ [newPatient store.patients uid] }) := by
    simp only [getPatient, notAuthenticated_some uid huid, hnone, savePatient_newPatient,
      Bool.false_eq_true, if_false, Option.getD_some]
    rfl
  have hfound : findPatient (store.patients ++ [newPatient store.patients uid]) uid
      = some (newPatient store.patients uid) := by
    rw [← savePatient_newPatient]
    exact findPatient_save_newPatient store.patients uid hnone
  have hsecond : getPatient
      { store with patients := store.patients ++ [newPatient store.patients uid] } (some uid)
      = (PatientResponse.success
          { id := toString (nextId (store.patients.map (fun p => p._id))), name := "User",
            email := "user@example.com" } none,
        { store with patients := store.patients ++ [newPatient store.patients uid] }) := by
    simp only [getPatient, notAuthenticated_some uid huid, hfound,
      Bool.false_eq_true, if_false, Option.getD_some]
    rfl
  have hfilter : store.patients.filter (fun p => decide (p.clerkId = uid)) = [] := by
    rw [List.filter_eq_nil_iff]
    intro p hp
    have := List.find?_eq_none.mp hnone p hp
    simpa using this
  rw [hfirst]
  refine ⟨rfl, rfl, rfl, hsecond, ?_⟩
  rw [hsecond]
  simp [List.filter_append, hfilter, newPatient]

/-- Witness of C24: the user `user_2` has no patient in the example database. -/
theorem getPatient_creates_one_patient_witness :
    (getPatient exampleStore (some "user_2")).1
      = PatientResponse.success
          { id := toString (nextId (exampleStore.patients.map (fun p => p._id))),
            name := "User", email := "user@example.com" } none :=
  (getPatient_creates_one_patient exampleStore "user_2" (by decide)
    (by simp [findPatient, exampleStore])).1


/-! ## Claims on the questionnaire of the dashboard -/

/-- The server score is the clamp of the sum before it. -/
theorem calculateHealthScoreAlgorithm_eq_clamp (data : HealthData) :
    calculateHealthScoreAlgorithm data = clampScore (scoreBeforeClamp data) := rfl

/-- The client score is the clamp of the sum before it. -/
theorem calculateOptimisticScore_eq_clamp (data : HealthData) :
    calculateOptimisticScore data = clampScore (optimisticScoreBeforeClamp data) := rfl

/-- For a non-zero height and finite answers the sum of the server is the spec's. -/
theorem scoreBeforeClamp_eq_spec (age weight height exercise sleep stress : ℚ)
    (hh : height ≠ 0) :
    scoreBeforeClamp (mkData age weight height exercise sleep stress)
      = fin (specFinalSum age weight height exercise sleep stress) := by
  have h1 : height / 100 ≠ 0 := by positivity
  have h2 : height / 100 * (height / 100) ≠ 0 := mul_ne_zero h1 h1
  simp only [scoreBeforeClamp, mkData, div_fin _ _ (by norm_num : (100:ℚ) ≠ 0),
    mul_fin, div_fin _ _ h2]
  simp only [add_fin, sub_fin, mul_fin, le_fin, lt_fin, ge_fin, gt_fin, min_fin,
    floor_fin, ite_fin, Bool.and_eq_true, Bool.or_eq_true, decide_eq_true_eq,
    div_fin _ _ (by norm_num : (5:ℚ) ≠ 0)]
  have hb : weight / (height / 100 * (height / 100)) = specBMI weight height := by
    rw [specBMI, pow_two]
  rw [hb]
  congr 1
  unfold specFinalSum specBmiAdjustment specSleepAdjustment specAgeAdjustment
    specExerciseAdjustment specStressAdjustment
  split_ifs <;> push_cast <;> ring

/-- For a non-zero height and finite answers the sum of the client is the spec's. -/
theorem optimisticScoreBeforeClamp_eq_spec (age weight height exercise sleep stress : ℚ)
    (hh : height ≠ 0) :
    optimisticScoreBeforeClamp (mkData age weight height exercise sleep stress)
      = fin (specPreviewSum weight height exercise sleep stress) := by
  have h1 : height / 100 ≠ 0 := by positivity
  have h2 : height / 100 * (height / 100) ≠ 0 := mul_ne_zero h1 h1
  simp only [optimisticScoreBeforeClamp, mkData, div_fin _ _ (by norm_num : (100:ℚ) ≠ 0),
    mul_fin, div_fin _ _ h2]
  simp only [add_fin, sub_fin, mul_fin, le_fin, lt_fin, ge_fin, gt_fin, min_fin,
    ite_fin, Bool.and_eq_true, Bool.or_eq_true, decide_eq_true_eq]
  have hb : weight / (height / 100 * (height / 100)) = specBMI weight height := by
    rw [specBMI, pow_two]
  rw [hb]
  congr 1
  unfold specPreviewSum specBmiAdjustment specSleepAdjustment
    specExerciseAdjustment specStressAdjustment
  split_ifs <;> ring

/-- **C25.** For every input inside the ranges declared by the dashboard questionnaire
(age 18..120, weight 30..300, height 100..250, exercise 0..7, sleep 1..16, stress 1..10, all
integers), the unclamped sum computed by `calculateHealthScoreAlgorithm` is an integer
between 50 and 99 inclusive, so `Math.round` and the clamp never change it and the score 100
is never produced; for `calculateOptimisticScore` the range is 55..99. -/
theorem questionnaire_scores_unclamped (age weight height exercise sleep stress : ℕ)
    (hrange : InQuestionRanges age weight height exercise sleep stress) :
    (∃ z : ℤ, 50 ≤ z ∧ z ≤ 99 ∧
      scoreBeforeClamp (mkData age weight height exercise sleep stress) = fin z ∧
      calculateHealthScoreAlgorithm (mkData age weight height exercise sleep stress) = fin z) ∧
    calculateHealthScoreAlgorithm (mkData age weight height exercise sleep stress) ≠ fin 100 ∧
    (∃ z : ℤ, 55 ≤ z ∧ z ≤ 99 ∧
      optimisticScoreBeforeClamp (mkData age weight height exercise sleep stress) = fin z ∧
      calculateOptimisticScore (mkData age weight height exercise sleep stress) = fin z) ∧
    calculateOptimisticScore (mkData age weight height exercise sleep stress) ≠ fin 100 := by
  obtain ⟨-, ⟨hw, -⟩, ⟨hh, -⟩, he, ⟨hs, -⟩, hst1, hst10⟩ := hrange
  have hh0 : (height : ℚ) ≠ 0 := by
    have : (0 : ℚ) < height := by exact_mod_cast (by omega : 0 < height)
    exact ne_of_gt this
  have hv : ValidInput (weight : ℚ) (height : ℚ) (sleep : ℚ) exercise stress :=
    ⟨by exact_mod_cast (by omega : 0 < weight), by exact_mod_cast (by omega : 0 < height), he,
      by exact_mod_cast (Nat.zero_le sleep), hst1, hst10⟩
  obtain ⟨z, hz55, hz99, hzq⟩ := specPreviewSum_int weight height sleep exercise stress hv
  obtain ⟨hA0, hA5⟩ := specAgeAdjustment_range age
  have hfinal : specFinalSum age weight height exercise sleep stress
      = ((z - specAgeAdjustment age : ℤ) : ℚ) := by
    rw [specFinalSum_eq, hzq]
    push_cast
    rfl
  have hserver : calculateHealthScoreAlgorithm (mkData age weight height exercise sleep stress)
      = fin ((z - specAgeAdjustment age : ℤ) : ℚ) := by
    rw [calculateHealthScoreAlgorithm_eq_clamp, scoreBeforeClamp_eq_spec _ _ _ _ _ _ hh0, hfinal,
      clampScore_fin, specClampRound_intCast _ (by omega) (by omega)]
  have hclient : calculateOptimisticScore (mkData age weight height exercise sleep stress)
      = fin ((z : ℤ) : ℚ) := by
    rw [calculateOptimisticScore_eq_clamp, optimisticScoreBeforeClamp_eq_spec _ _ _ _ _ _ hh0,
      hzq, clampScore_fin, specClampRound_intCast _ (by omega) (by omega)]
  refine ⟨⟨z - specAgeAdjustment age, by omega, by omega, ?_, hserver⟩, ?_,
    ⟨z, hz55, hz99, ?_, hclient⟩, ?_⟩
  · rw [scoreBeforeClamp_eq_spec _ _ _ _ _ _ hh0, hfinal]
  · rw [hserver]
    intro h
    have h100 : ((z - specAgeAdjustment age : ℤ) : ℚ) = ((100 : ℤ) : ℚ) := by
      have := JSNum.fin.inj h
      rw [this]
      norm_num
    have := Int.cast_injective h100
    omega
  · rw [optimisticScoreBeforeClamp_eq_spec _ _ _ _ _ _ hh0, hzq]
  · rw [hclient]
    intro h
    have h100 : ((z : ℤ) : ℚ) = ((100 : ℤ) : ℚ) := by
      have := JSNum.fin.inj h
      rw [this]
      norm_num
    have := Int.cast_injective h100
    omega

/-- Witness of C25 at age 85, weight 120, height 160, exercise 0, sleep 4, stress 10, where
the score is the lowest possible, 50. -/
theorem questionnaire_scores_unclamped_witness :
    InQuestionRanges 85 120 160 0 4 10 ∧
    calculateHealthScoreAlgorithm
      (mkData (85 : ℕ) (120 : ℕ) (160 : ℕ) (0 : ℕ) (4 : ℕ) (10 : ℕ)) ≠ fin 100 :=
  ⟨by norm_num [InQuestionRanges],
    (questionnaire_scores_unclamped 85 120 160 0 4 10 (by norm_num [InQuestionRanges])).2.1⟩


/-- After `submitHealthData` the questions are hidden. -/
theorem submitHealthData_hides_questions (st : Dashboard) (store : Store)
    (userId : Option String) (now : ℕ) :
    (submitHealthData st store userId now).1.showQuestions = false := by
  cases hres : calculateHealthScore store st.answers userId now with
  | mk result store1 =>
    cases result with
    | failure e => simp [submitHealthData, hres]
    | success score info =>
      cases hhist : getHealthHistory store1 (limitOfUserId userId) none with
      | mk response store2 =>
        cases response <;> simp [submitHealthData, hres, hhist]

/-- Every event preserves the invariant of the dashboard run. -/
theorem questionnaireInvariant_step (userId : Option String) (s : Session)
    (event : DashboardEvent) (hinv : QuestionnaireInvariant s) :
    QuestionnaireInvariant (dashboardStep userId s event) := by
  obtain ⟨hsub, hshown⟩ := hinv
  cases event with
  | startAssessment =>
    by_cases hshow : s.dashboard.showQuestions = true
    · simpa [dashboardStep, hshow] using ⟨hsub, hshown⟩
    · simp only [dashboardStep, hshow, Bool.false_eq_true, if_false]
      exact ⟨hsub, fun _ => ⟨by simp [handleStartAssessment], by simp [handleStartAssessment]⟩⟩
  | answerChange value =>
    by_cases hshow : s.dashboard.showQuestions = true
    · obtain ⟨hle, hex⟩ := hshown hshow
      simp only [dashboardStep, hshow, if_true]
      refine ⟨hsub, fun _ => ?_⟩
      have hcases : s.dashboard.currentQuestion = 0 ∨ s.dashboard.currentQuestion = 1 ∨
          s.dashboard.currentQuestion = 2 ∨ s.dashboard.currentQuestion = 3 ∨
          s.dashboard.currentQuestion = 4 ∨ s.dashboard.currentQuestion = 5 := by omega
      rcases hcases with h | h | h | h | h | h
      · simp [handleAnswerChange, questions, setAnswer, h]
      · simp [handleAnswerChange, questions, setAnswer, h]
      · simp [handleAnswerChange, questions, setAnswer, h]
      · simp [handleAnswerChange, questions, setAnswer, h]
      · have := hex (by omega)
        simpa [handleAnswerChange, questions, setAnswer, h] using this
      · have := hex (by omega)
        simpa [handleAnswerChange, questions, setAnswer, h] using this
    · simpa [dashboardStep, hshow] using ⟨hsub, hshown⟩
  | next now =>
    by_cases hshow : s.dashboard.showQuestions = true
    · obtain ⟨hle, hex⟩ := hshown hshow
      by_cases hen : nextEnabled s.dashboard = true
      · simp only [dashboardStep, hshow, hen, Bool.and_self, if_true]
        have hlen : questions.length - 1 = 5 := rfl
        by_cases hlt : s.dashboard.currentQuestion < 5
        · simp only [handleNextQuestion, hlen, hlt, if_true]
          refine ⟨hsub, fun _ => ⟨Nat.succ_le_of_lt hlt, fun h3 => ?_⟩⟩
          have h3' : 3 ≤ s.dashboard.currentQuestion := Nat.le_of_lt_succ h3
          rcases Nat.eq_or_lt_of_le h3' with h | h
          · have hq : questions[s.dashboard.currentQuestion]? =
                some { id := "exercise", text := "How many days per week do you exercise?",
                       min := 0, max := 7 } := by
              rw [← h]
              rfl
            simpa [nextEnabled, hq, answerOf] using hen
          · exact hex h
        · have h5 : s.dashboard.currentQuestion = 5 := by omega
          simp only [handleNextQuestion, hlen, hlt, if_false]
          refine ⟨?_, fun hshow' => ?_⟩
          · intro data hdata
            rcases List.mem_append.mp hdata with hmem | hmem
            · exact hsub data hmem
            · rw [List.mem_singleton] at hmem
              subst hmem
              exact hex (by omega)
          · rw [submitHealthData_hides_questions] at hshow'
            cases hshow'
      · simpa [dashboardStep, hshow, hen] using ⟨hsub, hshown⟩
    · simpa [dashboardStep, hshow] using ⟨hsub, hshown⟩
  | back =>
    by_cases hshow : s.dashboard.showQuestions = true
    · obtain ⟨hle, hex⟩ := hshown hshow
      by_cases hpos : s.dashboard.currentQuestion > 0
      · simp only [dashboardStep, hshow, hpos, decide_True, Bool.and_self, if_true]
        exact ⟨hsub, fun _ => ⟨by simp; omega, fun h3 => hex (by simp at h3; omega)⟩⟩
      · simpa [dashboardStep, hshow, hpos] using ⟨hsub, hshown⟩
    · simpa [dashboardStep, hshow] using ⟨hsub, hshown⟩

/-- The invariant holds after every sequence of events. -/
theorem questionnaireInvariant_run (userId : Option String) (events : List DashboardEvent) :
    ∀ s : Session, QuestionnaireInvariant s →
      QuestionnaireInvariant (events.foldl (dashboardStep userId) s) := by
  induction events with
  | nil => intro s hs; exact hs
  | cons e rest ih =>
    intro s hs
    exact ih _ (questionnaireInvariant_step userId s e hs)

/-- A complete assessment with non-zero answers is submitted: the answers reach the server. -/
theorem completeAssessment_submits :
    ((completeAssessment 30 70 175 5 8 3 3000).foldl (dashboardStep (some "user_1"))
      { dashboard := initialDashboard, store := exampleStore, submissions := [] }).submissions
      = [mkData 30 70 175 5 8 3] := by
  simp [completeAssessment, dashboardStep, initialDashboard, handleStartAssessment,
    handleAnswerChange, handleNextQuestion, nextEnabled, questions, setAnswer, answerOf,
    emptyData, mkData, submitHealthData_hides_questions]

/-- With the answer 0 to the exercise question the run stays on that question and nothing is
submitted, whatever is clicked afterwards. -/
theorem completeAssessment_blocked_by_zero_exercise :
    ((completeAssessment 30 70 175 0 8 3 3000).foldl (dashboardStep (some "user_1"))
      { dashboard := initialDashboard, store := exampleStore, submissions := [] }).submissions
      = [] := by
  simp [completeAssessment, dashboardStep, initialDashboard, handleStartAssessment,
    handleAnswerChange, handleNextQuestion, nextEnabled, questions, setAnswer, answerOf,
    emptyData, mkData]

/-- **C26.** In the dashboard questionnaire the Next / Calculate Score button is enabled
exactly when the stored answer to the current question is a non-zero number (it is disabled
for 0, for NaN and for an absent answer); the exercise question declares the range 0..7, yet
with the answer 0 on it the button is disabled; and in every run of the dashboard from its
initial state, every set of answers submitted to the server has a non-zero exercise answer. -/
theorem next_button_needs_nonzero_answer :
    (∀ (st : Dashboard) (question : Question),
      questions[st.currentQuestion]? = some question →
      (answerOf st.answers question.id = nan → nextEnabled st = false) ∧
      (∀ x : ℚ, answerOf st.answers question.id = fin x → (nextEnabled st = true ↔ x ≠ 0))) ∧
    questions[3]? = some { id := "exercise", text := "How many days per week do you exercise?",
                           min := 0, max := 7 } ∧
    (∀ st : Dashboard, st.currentQuestion = 3 → st.answers.exercise = fin 0 →
      nextEnabled st = false) ∧
    (∀ (userId : Option String) (store : Store) (events : List DashboardEvent),
      ∀ data ∈ (events.foldl (dashboardStep userId)
          { dashboard := initialDashboard, store := store, submissions := [] }).submissions,
        truthy data.exercise = true ∧ data.exercise ≠ fin 0) := by
  refine ⟨?_, rfl, ?_, ?_⟩
  · intro st question hq
    constructor
    · intro hnan
      simp [nextEnabled, hq, hnan, truthy]
    · intro x hx
      simp [nextEnabled, hq, hx]
  · intro st h3 h0
    have hq : questions[st.currentQuestion]? =
        some { id := "exercise", text := "How many days per week do you exercise?",
               min := 0, max := 7 } := by
      rw [h3]
      rfl
    simp [nextEnabled, hq, answerOf, h0]
  · intro userId store events data hdata
    have hinit : QuestionnaireInvariant
        { dashboard := initialDashboard, store := store, submissions := [] } :=
      ⟨fun d hd => (by cases hd), fun h => (by simp [initialDashboard] at h)⟩
    have htruthy := (questionnaireInvariant_run userId events _ hinit).1 data hdata
    refine ⟨htruthy, fun h0 => ?_⟩
    rw [h0] at htruthy
    simp at htruthy

/-- Witness of C26 on the run of a complete assessment: the answers submitted have the
non-zero exercise answer 5. -/
theorem next_button_needs_nonzero_answer_witness :
    mkData 30 70 175 5 8 3 ∈
        ((completeAssessment 30 70 175 5 8 3 3000).foldl (dashboardStep (some "user_1"))
          { dashboard := initialDashboard, store := exampleStore,
            submissions := [] }).submissions ∧
    truthy (mkData 30 70 175 5 8 3).exercise = true ∧
    (mkData 30 70 175 5 8 3).exercise ≠ fin 0 :=
  ⟨(by rw [completeAssessment_submits]; exact List.mem_singleton.mpr rfl),
    next_button_needs_nonzero_answer.2.2.2 (some "user_1") exampleStore
      (completeAssessment 30 70 175 5 8 3 3000) (mkData 30 70 175 5 8 3)
      (by rw [completeAssessment_submits]; exact List.mem_singleton.mpr rfl)⟩


/-- **C27.** For an integer score `s` in 1..100 the status text of `renderHealthScore`
(Excellent if s ≥ 80, Good if s ≥ 60, Needs Improvement if s < 50, otherwise Average) and
the status of `getScoreDetails` (Excellent if s ≥ 80, Good if s ≥ 70, Average if s ≥ 60,
otherwise Needs Improvement) agree if and only if s < 50 or s ≥ 70; for every s in 50..69
they differ. -/
theorem status_labels_agree_iff (s : ℕ) (h1 : 1 ≤ s) (h100 : s ≤ 100) :
    (renderHealthScoreStatus (fin s) = some (getScoreDetails (fin s)).2 ↔ (s < 50 ∨ 70 ≤ s)) ∧
    (50 ≤ s ∧ s ≤ 69 → renderHealthScoreStatus (fin s) ≠ some (getScoreDetails (fin s)).2) := by
  have hs0 : (s : ℚ) ≠ 0 := by
    have : (0 : ℚ) < s := by exact_mod_cast (by omega : 0 < s)
    exact ne_of_gt this
  have c80 : ((80 : ℚ) ≤ s) ↔ 80 ≤ s := by exact_mod_cast Iff.rfl
  have c70 : ((70 : ℚ) ≤ s) ↔ 70 ≤ s := by exact_mod_cast Iff.rfl
  have c60 : ((60 : ℚ) ≤ s) ↔ 60 ≤ s := by exact_mod_cast Iff.rfl
  have c50 : ((s : ℚ) < 50) ↔ s < 50 := by exact_mod_cast Iff.rfl
  have key : renderHealthScoreStatus (fin s) = some (getScoreDetails (fin s)).2 ↔
      (s < 50 ∨ 70 ≤ s) := by
    simp only [renderHealthScoreStatus, getScoreDetails, truthy_fin, ge_fin, lt_fin,
      decide_eq_true_eq, c80, c70, c60, c50, ne_eq, hs0, not_false_eq_true, decide_True,
      Bool.not_true, Bool.false_eq_true, if_false]
    by_cases h80 : 80 ≤ s
    · simp [h80]
      omega
    · by_cases h70 : 70 ≤ s
      · have h60 : 60 ≤ s := by omega
        simp [h80, h70, h60]
      · by_cases h60 : 60 ≤ s
        · simp [h80, h70, h60]
          omega
        · by_cases h50 : s < 50
          · simp [h80, h70, h60, h50]
          · simp [h80, h70, h60, h50]
  refine ⟨key, fun hmid heq => ?_⟩
  have := key.mp heq
  omega

/-- Witness of C27 at the score 65, "Good" on one dashboard and "Average" on the other. -/
theorem status_labels_agree_iff_witness :
    renderHealthScoreStatus (fin (65 : ℕ)) ≠ some (getScoreDetails (fin (65 : ℕ))).2 :=
  (status_labels_agree_iff 65 (by norm_num) (by norm_num)).2 ⟨by norm_num, by norm_num⟩

/-- **C28.** `calculateHealthMetrics(latestHealth, history)` with `latestHealth = null`
leaves all four breakdown metrics exactly as they were (initially the hard-coded 85 / 75 /
68 / 90), for every history list; with `latestHealth` non-null and an empty history it sets
heart, respiratory and skeletal to their bases 75, 70 and 70 adjusted only by the BMI terms:
heart is 75, respiratory is 70 (they have no BMI term) and skeletal is 70, less 5 when the
BMI is present and below 18.5 or above 30. -/
theorem metrics_frame_and_bases :
    (∀ (healthMetrics : HealthMetrics) (historyRecords : List HistoryRecord),
      calculateHealthMetrics healthMetrics none historyRecords = healthMetrics) ∧
    (initialHealthMetrics.heartHealth.score = fin 85 ∧
      initialHealthMetrics.respiratory.score = fin 75 ∧
      initialHealthMetrics.metabolic.score = fin 68 ∧
      initialHealthMetrics.skeletal.score = fin 90) ∧
    (∀ (healthMetrics : HealthMetrics) (latestHealth : LatestHealth),
      (calculateHealthMetrics healthMetrics (some latestHealth) []).heartHealth.score
        = fin 75 ∧
      (calculateHealthMetrics healthMetrics (some latestHealth) []).respiratory.score
        = fin 70 ∧
      (calculateHealthMetrics healthMetrics (some latestHealth) []).skeletal.score
        = (if truthy latestHealth.bmi
              && (lt latestHealth.bmi (fin 18.5) || gt latestHealth.bmi (fin 30))
            then fin 65 else fin 70)) := by
  refine ⟨fun _ _ => rfl, ⟨rfl, rfl, rfl, rfl⟩, fun healthMetrics latestHealth => ⟨?_, ?_, ?_⟩⟩
  · simp [calculateHealthMetrics, latestRecordData, emptyData, heartScore, clampScore, truthy]
    norm_num
  · simp [calculateHealthMetrics, latestRecordData, emptyData, respiratoryScore, clampScore,
      truthy, ge, le]
    norm_num
  · cases hb : latestHealth.bmi with
    | fin b =>
      by_cases h0 : b = 0 <;> by_cases hlow : b < 18.5 <;> by_cases hhigh : 30 < b <;>
        simp [calculateHealthMetrics, latestRecordData, emptyData, skeletalScore, clampScore,
          truthy, gt, lt, hb, h0, hlow, hhigh] <;> norm_num
    | posInf =>
      simp [calculateHealthMetrics, latestRecordData, emptyData, skeletalScore, clampScore,
        truthy, gt, lt, hb]
      norm_num
    | negInf =>
      simp [calculateHealthMetrics, latestRecordData, emptyData, skeletalScore, clampScore,
        truthy, gt, lt, hb]
      norm_num
    | nan =>
      simp [calculateHealthMetrics, latestRecordData, emptyData, skeletalScore, clampScore,
        truthy, gt, lt, hb]
      norm_num

/-! ## Claims on the multi-step assessment -/

/-- Every step handler keeps the step index between 0 and 4. -/
theorem assessmentStep_keeps_range (st : Assessment) (event : AssessmentEvent)
    (h : 0 ≤ st.step ∧ st.step ≤ 4) :
    0 ≤ (assessmentStep st event).step ∧ (assessmentStep st event).step ≤ 4 := by
  have hlen : ((categories.length : ℕ) : ℤ) - 1 = 4 := by
    simp [categories]
  cases event with
  | goToNextStep =>
    simp only [assessmentStep, goToNextStep, hlen]
    split_ifs with hlt
    · exact ⟨by simp only; omega, by simp only; omega⟩
    · simpa [calculateResults] using h
  | goToPreviousStep =>
    simp only [assessmentStep, goToPreviousStep]
    split_ifs with hpos
    · exact ⟨by simp only; omega, by simp only; omega⟩
    · exact h
  | restartAssessment =>
    simp [assessmentStep, restartAssessment]

/-- **C29.** In the multi-step health assessment, starting from step 0 and applying any
sequence of `goToNextStep`, `goToPreviousStep` and `restartAssessment`, the step index always
satisfies `0 ≤ step ≤ 4` (`categories.length − 1`); `goToPreviousStep` at step 0 and
`goToNextStep` at step 4 leave the step unchanged, the latter calling `calculateResults`
instead. -/
theorem assessment_step_stays_in_range :
    (∀ events : List AssessmentEvent,
      0 ≤ (events.foldl assessmentStep initialAssessment).step ∧
      (events.foldl assessmentStep initialAssessment).step
        ≤ ((categories.length : ℕ) : ℤ) - 1) ∧
    ((categories.length : ℕ) : ℤ) - 1 = 4 ∧
    (∀ st : Assessment, st.step = 0 → goToPreviousStep st = st) ∧
    (∀ st : Assessment, st.step = 4 →
      (goToNextStep st).step = 4 ∧
      (goToNextStep st).calculateResultsCalls = st.calculateResultsCalls + 1) ∧
    (∀ st : Assessment, 0 ≤ st.step → st.step < 4 →
      (goToNextStep st).step = st.step + 1 ∧
      (goToNextStep st).calculateResultsCalls = st.calculateResultsCalls) := by
  have hlen : ((categories.length : ℕ) : ℤ) - 1 = 4 := by
    simp [categories]
  have hrun : ∀ (events : List AssessmentEvent) (st : Assessment),
      0 ≤ st.step ∧ st.step ≤ 4 →
      0 ≤ (events.foldl assessmentStep st).step ∧ (events.foldl assessmentStep st).step ≤ 4 := by
    intro events
    induction events with
    | nil => intro st h; exact h
    | cons e rest ih =>
      intro st h
      exact ih _ (assessmentStep_keeps_range st e h)
  refine ⟨fun events => ?_, hlen, ?_, ?_, ?_⟩
  · rw [hlen]
    exact hrun events initialAssessment ⟨le_refl 0, by simp [initialAssessment]⟩
  · intro st h0
    simp [goToPreviousStep, h0]
  · intro st h4
    simp [goToNextStep, hlen, h4, calculateResults]
  · intro st h0 h4
    simp [goToNextStep, hlen, h4]

/-- Witness of C29: at step 4 a further `goToNextStep` keeps the step and calls
`calculateResults`. -/
theorem assessment_step_stays_in_range_witness :
    (goToNextStep { step := 4, calculateResultsCalls := 0 }).step = 4 ∧
    (goToNextStep { step := 4, calculateResultsCalls := 0 }).calculateResultsCalls = 0 + 1 :=
  assessment_step_stays_in_range.2.2.2.1 { step := 4, calculateResultsCalls := 0 } rfl

end HealthMosaic
